import Mathlib

/-!
# NVIC and SysTick drivers for the TM4C123GH6PM

A shallow embedding of `NVIC.c` and `SysTick.c`.

* The hardware is a word-addressed register file: `State.mem a` is the 32-bit
  word stored at byte address `a`.  A load yields a value below `2 ^ 32` and a
  store truncates to 32 bits.
* The register macros of `tm4c123gh6pm_registers.h` and the constants of
  `NVIC.h` are not part of the sources; they are taken as parameters
  (`RegisterMap`, `NvicHeader`).
* C integer expressions are evaluated over `Nat`/`Int`; every conversion to a
  narrower unsigned type is an explicit `%`.  A left shift of an `int` operand
  is taken on the bit pattern (two's complement) and truncated by the 32-bit
  store that receives it.
-/

namespace ArmDriver

/-! ## Data model -/

/-- Byte addresses of the registers named by the macros of
`tm4c123gh6pm_registers.h` (each macro dereferences one fixed address). -/
structure RegisterMap where
  NVIC_EN0_REG : Nat
  NVIC_EN1_REG : Nat
  NVIC_EN2_REG : Nat
  NVIC_EN3_REG : Nat
  NVIC_EN4_REG : Nat
  NVIC_DIS0_REG : Nat
  NVIC_DIS1_REG : Nat
  NVIC_DIS2_REG : Nat
  NVIC_DIS3_REG : Nat
  NVIC_DIS4_REG : Nat
  NVIC_PRI_BASE_ADDRESS : Nat
  NVIC_SYSTEM_PRI1_REG : Nat
  NVIC_SYSTEM_PRI2_REG : Nat
  NVIC_SYSTEM_PRI3_REG : Nat
  NVIC_SYSTEM_SYSHNDCTRL : Nat
  SYSTICK_CTRL_REG : Nat
  SYSTICK_RELOAD_REG : Nat
  SYSTICK_CURRENT_REG : Nat

/-- Constants of `NVIC.h` used by the exception services. -/
structure NvicHeader where
  MEM_FAULT_PRIORITY_MASK : Nat
  MEM_FAULT_PRIORITY_BITS_POS : Nat
  BUS_FAULT_PRIORITY_MASK : Nat
  BUS_FAULT_PRIORITY_BITS_POS : Nat
  USAGE_FAULT_PRIORITY_MASK : Nat
  USAGE_FAULT_PRIORITY_BITS_POS : Nat
  SVC_PRIORITY_MASK : Nat
  SVC_PRIORITY_BITS_POS : Nat
  DEBUG_MONITOR_PRIORITY_MASK : Nat
  DEBUG_MONITOR_PRIORITY_BITS_POS : Nat
  PENDSV_PRIORITY_MASK : Nat
  PENDSV_PRIORITY_BITS_POS : Nat
  SYSTICK_PRIORITY_MASK : Nat
  SYSTICK_PRIORITY_BITS_POS : Nat
  MEM_FAULT_ENABLE_MASK : Nat
  BUS_FAULT_ENABLE_MASK : Nat
  USAGE_FAULT_ENABLE_MASK : Nat

/-- The exception identifiers the services switch on. -/
inductive NVIC_ExceptionType where
  | EXCEPTION_MEM_FAULT_TYPE
  | EXCEPTION_BUS_FAULT_TYPE
  | EXCEPTION_USAGE_FAULT_TYPE
  | EXCEPTION_SVC_TYPE
  | EXCEPTION_DEBUG_MONITOR_TYPE
  | EXCEPTION_PEND_SV_TYPE
  | EXCEPTION_SYSTICK_TYPE
  deriving DecidableEq, Repr

/-- Machine state: the register file and the one global of `SysTick.c`.
A procedure is named by a number; `none` is `NULL_PTR`. -/
structure State where
  mem : Nat → Nat
  g_callBackPtr : Option Nat

/-- A 32-bit load from address `a`. -/
def State.load (s : State) (a : Nat) : Nat :=
  s.mem a % 2 ^ 32

/-- A 32-bit store of `v` to address `a`. -/
def State.store (s : State) (a v : Nat) : State :=
  { s with mem := fun x => if x = a then v % 2 ^ 32 else s.mem x }

/-- The C operator `~` on a 32-bit operand. -/
def not32 (x : Nat) : Nat :=
  2 ^ 32 - 1 - x % 2 ^ 32

/-- Conversion to the 8-bit unsigned type `uint8`. -/
def uint8 (x : Nat) : Nat :=
  x % 2 ^ 8

/-- Conversion to the 16-bit unsigned type `uint16`. -/
def uint16 (x : Nat) : Nat :=
  x % 2 ^ 16

/-- Conversion of an `int` value to `uint32`. -/
def uint32 (i : Int) : Nat :=
  (i % 2 ^ 32).toNat

/-! ## NVIC.c -/

/-- The function `NVIC_EnableIRQ`. -/
def NVIC_EnableIRQ (R : RegisterMap) (IRQ_Num : Nat) (s : State) : State :=
  if 0 ≤ IRQ_Num ∧ IRQ_Num ≤ 31 then
    s.store R.NVIC_EN0_REG (s.load R.NVIC_EN0_REG ||| (1 <<< IRQ_Num))
  else if 32 ≤ IRQ_Num ∧ IRQ_Num ≤ 63 then
    s.store R.NVIC_EN1_REG (s.load R.NVIC_EN1_REG ||| (1 <<< (IRQ_Num &&& 0x1F)))
  else if 64 ≤ IRQ_Num ∧ IRQ_Num ≤ 95 then
    s.store R.NVIC_EN2_REG (s.load R.NVIC_EN2_REG ||| (1 <<< (IRQ_Num &&& 0x1F)))
  else if 96 ≤ IRQ_Num ∧ IRQ_Num ≤ 127 then
    s.store R.NVIC_EN3_REG (s.load R.NVIC_EN3_REG ||| (1 <<< (IRQ_Num &&& 0x1F)))
  else if 128 ≤ IRQ_Num ∧ IRQ_Num ≤ 138 then
    s.store R.NVIC_EN4_REG (s.load R.NVIC_EN4_REG ||| (1 <<< (IRQ_Num &&& 0x1F)))
  else
    s

/-- The function `NVIC_DisableIRQ`. -/
def NVIC_DisableIRQ (R : RegisterMap) (IRQ_Num : Nat) (s : State) : State :=
  if 0 ≤ IRQ_Num ∧ IRQ_Num ≤ 31 then
    s.store R.NVIC_DIS0_REG (s.load R.NVIC_DIS0_REG ||| (1 <<< IRQ_Num))
  else if 32 ≤ IRQ_Num ∧ IRQ_Num ≤ 63 then
    s.store R.NVIC_DIS1_REG (s.load R.NVIC_DIS1_REG ||| (1 <<< (IRQ_Num &&& 0x1F)))
  else if 64 ≤ IRQ_Num ∧ IRQ_Num ≤ 95 then
    s.store R.NVIC_DIS2_REG (s.load R.NVIC_DIS2_REG ||| (1 <<< (IRQ_Num &&& 0x1F)))
  else if 96 ≤ IRQ_Num ∧ IRQ_Num ≤ 127 then
    s.store R.NVIC_DIS3_REG (s.load R.NVIC_DIS3_REG ||| (1 <<< (IRQ_Num &&& 0x1F)))
  else if 128 ≤ IRQ_Num ∧ IRQ_Num ≤ 138 then
    s.store R.NVIC_DIS4_REG (s.load R.NVIC_DIS4_REG ||| (1 <<< (IRQ_Num &&& 0x1F)))
  else
    s

/-- The address held by `Pri_Reg_PTR` in `NVIC_SetPriorityIRQ`. -/
def Pri_Reg_PTR (R : RegisterMap) (IRQ_Num : Nat) : Nat :=
  R.NVIC_PRI_BASE_ADDRESS + ((IRQ_Num / 4) * 4)

/-- The value of the `uint8` local `Pri_Bits_Pos` in `NVIC_SetPriorityIRQ`. -/
def Pri_Bits_Pos (IRQ_Num : Nat) : Nat :=
  uint8 (((IRQ_Num &&& 0x03) <<< 3) ||| 0x05)

/-- The value of the `uint8` local `Pri_Mask` in `NVIC_SetPriorityIRQ`:
the 32-bit complement is converted to 8 bits by the assignment. -/
def Pri_Mask (IRQ_Num : Nat) : Nat :=
  uint8 (not32 (0x07 <<< Pri_Bits_Pos IRQ_Num))

/-- The function `NVIC_SetPriorityIRQ`. -/
def NVIC_SetPriorityIRQ (R : RegisterMap) (IRQ_Num IRQ_Priority : Nat) (s : State) : State :=
  s.store (Pri_Reg_PTR R IRQ_Num)
    ((s.load (Pri_Reg_PTR R IRQ_Num) &&& Pri_Mask IRQ_Num)
      ||| (IRQ_Priority <<< Pri_Bits_Pos IRQ_Num))

open NVIC_ExceptionType in
/-- The function `NVIC_EnableException`. -/
def NVIC_EnableException (R : RegisterMap) (H : NvicHeader)
    (Exception_Num : NVIC_ExceptionType) (s : State) : State :=
  match Exception_Num with
  | EXCEPTION_MEM_FAULT_TYPE =>
    s.store R.NVIC_SYSTEM_SYSHNDCTRL (s.load R.NVIC_SYSTEM_SYSHNDCTRL ||| H.MEM_FAULT_ENABLE_MASK)
  | EXCEPTION_BUS_FAULT_TYPE =>
    s.store R.NVIC_SYSTEM_SYSHNDCTRL (s.load R.NVIC_SYSTEM_SYSHNDCTRL ||| H.BUS_FAULT_ENABLE_MASK)
  | EXCEPTION_USAGE_FAULT_TYPE =>
    s.store R.NVIC_SYSTEM_SYSHNDCTRL (s.load R.NVIC_SYSTEM_SYSHNDCTRL ||| H.USAGE_FAULT_ENABLE_MASK)
  | _ => s

open NVIC_ExceptionType in
/-- The function `NVIC_DisableException`. -/
def NVIC_DisableException (R : RegisterMap) (H : NvicHeader)
    (Exception_Num : NVIC_ExceptionType) (s : State) : State :=
  match Exception_Num with
  | EXCEPTION_MEM_FAULT_TYPE =>
    s.store R.NVIC_SYSTEM_SYSHNDCTRL
      (s.load R.NVIC_SYSTEM_SYSHNDCTRL &&& not32 H.MEM_FAULT_ENABLE_MASK)
  | EXCEPTION_BUS_FAULT_TYPE =>
    s.store R.NVIC_SYSTEM_SYSHNDCTRL
      (s.load R.NVIC_SYSTEM_SYSHNDCTRL &&& not32 H.BUS_FAULT_ENABLE_MASK)
  | EXCEPTION_USAGE_FAULT_TYPE =>
    s.store R.NVIC_SYSTEM_SYSHNDCTRL
      (s.load R.NVIC_SYSTEM_SYSHNDCTRL &&& not32 H.USAGE_FAULT_ENABLE_MASK)
  | _ => s

open NVIC_ExceptionType in
/-- The function `NVIC_SetPriorityException`. -/
def NVIC_SetPriorityException (R : RegisterMap) (H : NvicHeader)
    (Exception_Num : NVIC_ExceptionType) (Exception_Priority : Nat) (s : State) : State :=
  match Exception_Num with
  | EXCEPTION_MEM_FAULT_TYPE =>
    s.store R.NVIC_SYSTEM_PRI1_REG
      ((s.load R.NVIC_SYSTEM_PRI1_REG &&& H.MEM_FAULT_PRIORITY_MASK)
        ||| (Exception_Priority <<< H.MEM_FAULT_PRIORITY_BITS_POS))
  | EXCEPTION_BUS_FAULT_TYPE =>
    s.store R.NVIC_SYSTEM_PRI1_REG
      ((s.load R.NVIC_SYSTEM_PRI1_REG &&& H.BUS_FAULT_PRIORITY_MASK)
        ||| (Exception_Priority <<< H.BUS_FAULT_PRIORITY_BITS_POS))
  | EXCEPTION_USAGE_FAULT_TYPE =>
    s.store R.NVIC_SYSTEM_PRI1_REG
      ((s.load R.NVIC_SYSTEM_PRI1_REG &&& H.USAGE_FAULT_PRIORITY_MASK)
        ||| (Exception_Priority <<< H.USAGE_FAULT_PRIORITY_BITS_POS))
  | EXCEPTION_SVC_TYPE =>
    s.store R.NVIC_SYSTEM_PRI2_REG
      ((s.load R.NVIC_SYSTEM_PRI2_REG &&& H.SVC_PRIORITY_MASK)
        ||| (Exception_Priority <<< H.SVC_PRIORITY_BITS_POS))
  | EXCEPTION_DEBUG_MONITOR_TYPE =>
    s.store R.NVIC_SYSTEM_PRI3_REG
      ((s.load R.NVIC_SYSTEM_PRI3_REG &&& H.DEBUG_MONITOR_PRIORITY_MASK)
        ||| (Exception_Priority <<< H.DEBUG_MONITOR_PRIORITY_BITS_POS))
  | EXCEPTION_PEND_SV_TYPE =>
    s.store R.NVIC_SYSTEM_PRI3_REG
      ((s.load R.NVIC_SYSTEM_PRI3_REG &&& H.PENDSV_PRIORITY_MASK)
        ||| (Exception_Priority <<< H.PENDSV_PRIORITY_BITS_POS))
  | EXCEPTION_SYSTICK_TYPE =>
    s.store R.NVIC_SYSTEM_PRI3_REG
      ((s.load R.NVIC_SYSTEM_PRI3_REG &&& H.SYSTICK_PRIORITY_MASK)
        ||| (Exception_Priority <<< H.SYSTICK_PRIORITY_BITS_POS))

/-! ## SysTick.c -/

/-- The function `SysTick_Handler`, returning the procedures it invokes, in order. -/
def SysTick_Handler (s : State) : List Nat :=
  match s.g_callBackPtr with
  | some f => [f]
  | none => []

/-- The `int` expression `(a_TimeInMilliSeconds * 16000) - 1` of `SysTick_Init` and
`SysTick_StartBusyWait`, before its conversion to the 32-bit register. -/
def reloadExpr (a_TimeInMilliSeconds : Nat) : Int :=
  ((uint16 a_TimeInMilliSeconds : Nat) : Int) * 16000 - 1

/-- The function `SysTick_Init`. -/
def SysTick_Init (R : RegisterMap) (a_TimeInMilliSeconds : Nat) (s : State) : State :=
  let s := s.store R.SYSTICK_CTRL_REG 0
  let s := s.store R.SYSTICK_RELOAD_REG (uint32 (reloadExpr a_TimeInMilliSeconds))
  let s := s.store R.SYSTICK_CURRENT_REG 0
  s.store R.SYSTICK_CTRL_REG (s.load R.SYSTICK_CTRL_REG ||| 0x07)

/-- The function `SysTick_SetCallBack`. -/
def SysTick_SetCallBack (Ptr2Func : Option Nat) (s : State) : State :=
  { s with g_callBackPtr := Ptr2Func }

/-- The function `SysTick_Stop`. -/
def SysTick_Stop (R : RegisterMap) (s : State) : State :=
  s.store R.SYSTICK_CTRL_REG (s.load R.SYSTICK_CTRL_REG &&& not32 (1 <<< 0))

/-- The function `SysTick_Start`. -/
def SysTick_Start (R : RegisterMap) (s : State) : State :=
  s.store R.SYSTICK_CTRL_REG (s.load R.SYSTICK_CTRL_REG ||| (1 <<< 0))

/-- The function `SysTick_DeInit`. -/
def SysTick_DeInit (R : RegisterMap) (s : State) : State :=
  let s := s.store R.SYSTICK_CTRL_REG 0
  let s := s.store R.SYSTICK_CURRENT_REG 0
  s.store R.SYSTICK_RELOAD_REG 0

/-- The register writes of `SysTick_StartBusyWait` that precede its poll loop. -/
def SysTick_StartBusyWait_setup (R : RegisterMap) (a_TimeInMilliSeconds : Nat) (s : State) :
    State :=
  let s := s.store R.SYSTICK_CTRL_REG 0
  let s := s.store R.SYSTICK_RELOAD_REG (uint32 (reloadExpr a_TimeInMilliSeconds))
  let s := s.store R.SYSTICK_CURRENT_REG 0
  s.store R.SYSTICK_CTRL_REG (s.load R.SYSTICK_CTRL_REG ||| 0x05)

/-- The loop `while(!(SYSTICK_CTRL_REG & (1<<16)));`.  The hardware is the stream
`reads`: `reads k` is the value returned by read number `k` of the control
register.  With `k` reads already made, the loop makes at most `fuel` more and
yields the total number of reads made when it exits, or `none` when it is still
polling after `fuel` reads. -/
def pollCountFlag (reads : Nat → Nat) : Nat → Nat → Option Nat
  | 0, _ => none
  | fuel + 1, k =>
    if (reads k % 2 ^ 32) &&& (1 <<< 16) ≠ 0 then some (k + 1)
    else pollCountFlag reads fuel (k + 1)

/-- The function `SysTick_StartBusyWait`, polling at most `fuel` times.  On return
it yields the final state and the number of polls made.  The read-modify-write
of the final `SysTick_Stop` takes the next value of the stream: the hardware has
put it in the control register before `SysTick_Stop` reads it. -/
def SysTick_StartBusyWait (R : RegisterMap) (fuel : Nat) (reads : Nat → Nat)
    (a_TimeInMilliSeconds : Nat) (s : State) : Option (State × Nat) :=
  let s := SysTick_StartBusyWait_setup R a_TimeInMilliSeconds s
  match pollCountFlag reads fuel 0 with
  | none => none
  | some n => some (SysTick_Stop R (s.store R.SYSTICK_CTRL_REG (reads n)), n)

/-! ## Concrete parameters for evaluation -/

/-- The register addresses of the TM4C123GH6PM system control space. -/
def tm4c123gh6pm : RegisterMap where
  NVIC_EN0_REG := 0xE000E100
  NVIC_EN1_REG := 0xE000E104
  NVIC_EN2_REG := 0xE000E108
  NVIC_EN3_REG := 0xE000E10C
  NVIC_EN4_REG := 0xE000E110
  NVIC_DIS0_REG := 0xE000E180
  NVIC_DIS1_REG := 0xE000E184
  NVIC_DIS2_REG := 0xE000E188
  NVIC_DIS3_REG := 0xE000E18C
  NVIC_DIS4_REG := 0xE000E190
  NVIC_PRI_BASE_ADDRESS := 0xE000E400
  NVIC_SYSTEM_PRI1_REG := 0xE000ED18
  NVIC_SYSTEM_PRI2_REG := 0xE000ED1C
  NVIC_SYSTEM_PRI3_REG := 0xE000ED20
  NVIC_SYSTEM_SYSHNDCTRL := 0xE000ED24
  SYSTICK_CTRL_REG := 0xE000E010
  SYSTICK_RELOAD_REG := 0xE000E014
  SYSTICK_CURRENT_REG := 0xE000E018

/-- Header constants in which every priority mask is the 32-bit complement of
the 3-bit field at its bit position. -/
def complementHeader : NvicHeader where
  MEM_FAULT_PRIORITY_MASK := 0xFFFFFF1F
  MEM_FAULT_PRIORITY_BITS_POS := 5
  BUS_FAULT_PRIORITY_MASK := 0xFFFF1FFF
  BUS_FAULT_PRIORITY_BITS_POS := 13
  USAGE_FAULT_PRIORITY_MASK := 0xFF1FFFFF
  USAGE_FAULT_PRIORITY_BITS_POS := 21
  SVC_PRIORITY_MASK := 0x1FFFFFFF
  SVC_PRIORITY_BITS_POS := 29
  DEBUG_MONITOR_PRIORITY_MASK := 0xFFFFFF1F
  DEBUG_MONITOR_PRIORITY_BITS_POS := 5
  PENDSV_PRIORITY_MASK := 0xFF1FFFFF
  PENDSV_PRIORITY_BITS_POS := 21
  SYSTICK_PRIORITY_MASK := 0x1FFFFFFF
  SYSTICK_PRIORITY_BITS_POS := 29
  MEM_FAULT_ENABLE_MASK := 0x00010000
  BUS_FAULT_ENABLE_MASK := 0x00020000
  USAGE_FAULT_ENABLE_MASK := 0x00040000

/-- The state in which every register is zero and no callback is set. -/
def zeroState : State where
  mem := fun _ => 0
  g_callBackPtr := none

/-- The enable register of bank `k`, among `NVIC_EN0_REG` .. `NVIC_EN4_REG`. -/
def RegisterMap.NVIC_EN (R : RegisterMap) (k : Nat) : Nat :=
  match k with
  | 0 => R.NVIC_EN0_REG
  | 1 => R.NVIC_EN1_REG
  | 2 => R.NVIC_EN2_REG
  | 3 => R.NVIC_EN3_REG
  | _ => R.NVIC_EN4_REG

/-- The 3-bit priority field of line `id` as the hardware lays it out: bits
`(id mod 4) * 8 + 5` and up of priority register `id / 4`. -/
def linePriorityField (R : RegisterMap) (id : Nat) (s : State) : Nat :=
  (s.load (R.NVIC_PRI_BASE_ADDRESS + (id / 4) * 4) >>> ((id % 4) * 8 + 5)) &&& 7

open NVIC_ExceptionType in
/-- The bit position `NVIC_SetPriorityException` uses for each exception. -/
def NvicHeader.PRIORITY_BITS_POS (H : NvicHeader) : NVIC_ExceptionType → Nat
  | EXCEPTION_MEM_FAULT_TYPE => H.MEM_FAULT_PRIORITY_BITS_POS
  | EXCEPTION_BUS_FAULT_TYPE => H.BUS_FAULT_PRIORITY_BITS_POS
  | EXCEPTION_USAGE_FAULT_TYPE => H.USAGE_FAULT_PRIORITY_BITS_POS
  | EXCEPTION_SVC_TYPE => H.SVC_PRIORITY_BITS_POS
  | EXCEPTION_DEBUG_MONITOR_TYPE => H.DEBUG_MONITOR_PRIORITY_BITS_POS
  | EXCEPTION_PEND_SV_TYPE => H.PENDSV_PRIORITY_BITS_POS
  | EXCEPTION_SYSTICK_TYPE => H.SYSTICK_PRIORITY_BITS_POS

open NVIC_ExceptionType in
/-- The mask `NVIC_SetPriorityException` uses for each exception. -/
def NvicHeader.PRIORITY_MASK (H : NvicHeader) : NVIC_ExceptionType → Nat
  | EXCEPTION_MEM_FAULT_TYPE => H.MEM_FAULT_PRIORITY_MASK
  | EXCEPTION_BUS_FAULT_TYPE => H.BUS_FAULT_PRIORITY_MASK
  | EXCEPTION_USAGE_FAULT_TYPE => H.USAGE_FAULT_PRIORITY_MASK
  | EXCEPTION_SVC_TYPE => H.SVC_PRIORITY_MASK
  | EXCEPTION_DEBUG_MONITOR_TYPE => H.DEBUG_MONITOR_PRIORITY_MASK
  | EXCEPTION_PEND_SV_TYPE => H.PENDSV_PRIORITY_MASK
  | EXCEPTION_SYSTICK_TYPE => H.SYSTICK_PRIORITY_MASK

open NVIC_ExceptionType in
/-- The system-priority register `NVIC_SetPriorityException` writes for each exception. -/
def RegisterMap.SYSTEM_PRI_REG (R : RegisterMap) : NVIC_ExceptionType → Nat
  | EXCEPTION_MEM_FAULT_TYPE => R.NVIC_SYSTEM_PRI1_REG
  | EXCEPTION_BUS_FAULT_TYPE => R.NVIC_SYSTEM_PRI1_REG
  | EXCEPTION_USAGE_FAULT_TYPE => R.NVIC_SYSTEM_PRI1_REG
  | EXCEPTION_SVC_TYPE => R.NVIC_SYSTEM_PRI2_REG
  | EXCEPTION_DEBUG_MONITOR_TYPE => R.NVIC_SYSTEM_PRI3_REG
  | EXCEPTION_PEND_SV_TYPE => R.NVIC_SYSTEM_PRI3_REG
  | EXCEPTION_SYSTICK_TYPE => R.NVIC_SYSTEM_PRI3_REG

open NVIC_ExceptionType in
/-- The three configurable faults, which share `NVIC_SYSTEM_PRI1_REG`. -/
def NVIC_ExceptionType.isConfigurableFault : NVIC_ExceptionType → Bool
  | EXCEPTION_MEM_FAULT_TYPE => true
  | EXCEPTION_BUS_FAULT_TYPE => true
  | EXCEPTION_USAGE_FAULT_TYPE => true
  | _ => false

/-- The 3-bit priority field of exception `e`, read back from its register. -/
def exceptionPriorityField (R : RegisterMap) (H : NvicHeader) (e : NVIC_ExceptionType)
    (s : State) : Nat :=
  (s.load (R.SYSTEM_PRI_REG e) >>> H.PRIORITY_BITS_POS e) &&& 7

/-- Each fault priority mask is the 32-bit complement of `7 << X_PRIORITY_BITS_POS`. -/
def NvicHeader.FaultMasksComplement (H : NvicHeader) : Prop :=
  H.MEM_FAULT_PRIORITY_MASK = not32 (7 <<< H.MEM_FAULT_PRIORITY_BITS_POS)
  ∧ H.BUS_FAULT_PRIORITY_MASK = not32 (7 <<< H.BUS_FAULT_PRIORITY_BITS_POS)
  ∧ H.USAGE_FAULT_PRIORITY_MASK = not32 (7 <<< H.USAGE_FAULT_PRIORITY_BITS_POS)

/-- The three fault bit positions are pairwise at least 3 apart. -/
def NvicHeader.FaultFieldsApart (H : NvicHeader) : Prop :=
  (H.MEM_FAULT_PRIORITY_BITS_POS + 3 ≤ H.BUS_FAULT_PRIORITY_BITS_POS
    ∨ H.BUS_FAULT_PRIORITY_BITS_POS + 3 ≤ H.MEM_FAULT_PRIORITY_BITS_POS)
  ∧ (H.MEM_FAULT_PRIORITY_BITS_POS + 3 ≤ H.USAGE_FAULT_PRIORITY_BITS_POS
    ∨ H.USAGE_FAULT_PRIORITY_BITS_POS + 3 ≤ H.MEM_FAULT_PRIORITY_BITS_POS)
  ∧ (H.BUS_FAULT_PRIORITY_BITS_POS + 3 ≤ H.USAGE_FAULT_PRIORITY_BITS_POS
    ∨ H.USAGE_FAULT_PRIORITY_BITS_POS + 3 ≤ H.BUS_FAULT_PRIORITY_BITS_POS)

/-- A state in which line 1 has priority 7 in `NVIC_PRI0` and every other register is zero. -/
def line1Priority7 : State :=
  zeroState.store (tm4c123gh6pm.NVIC_PRI_BASE_ADDRESS + 0) 0x0000E000

/-- A state in which `NVIC_SYSTEM_PRI1_REG` holds priority 7 for all three faults. -/
def allFaultsPriority7 : State :=
  zeroState.store tm4c123gh6pm.NVIC_SYSTEM_PRI1_REG 0x00E0E0E0

/-- The three SysTick registers are three different addresses. -/
def RegisterMap.SysTickDistinct (R : RegisterMap) : Prop :=
  R.SYSTICK_CTRL_REG ≠ R.SYSTICK_RELOAD_REG
  ∧ R.SYSTICK_CTRL_REG ≠ R.SYSTICK_CURRENT_REG
  ∧ R.SYSTICK_RELOAD_REG ≠ R.SYSTICK_CURRENT_REG

/-- What a client does after registering a callback: it calls one of the timer
services that take no stream of reads, or the interrupt fires (`handler`). -/
inductive TimerOp where
  | init (ms : Nat)
  | start
  | stop
  | deInit
  | handler
  deriving DecidableEq, Repr

/-- The effect of one `TimerOp` on the state; a firing writes nothing itself. -/
def TimerOp.apply (R : RegisterMap) : TimerOp → State → State
  | .init ms, s => SysTick_Init R ms s
  | .start, s => SysTick_Start R s
  | .stop, s => SysTick_Stop R s
  | .deInit, s => SysTick_DeInit R s
  | .handler, s => s

/-- For each firing in `ops`, in order, the procedures `SysTick_Handler` invokes. -/
def handlerTrace (R : RegisterMap) : List TimerOp → State → List (List Nat)
  | [], _ => []
  | op :: ops, s =>
    if op = TimerOp.handler then SysTick_Handler s :: handlerTrace R ops s
    else handlerTrace R ops (op.apply R s)

/-- A stream of control-register reads whose COUNT flag is first set at read 3. -/
def flagAtThird (k : Nat) : Nat :=
  if k = 3 then 0x00010005 else 0x00000005

/-- The disable register of bank `k`, among `NVIC_DIS0_REG` .. `NVIC_DIS4_REG`. -/
def RegisterMap.NVIC_DIS (R : RegisterMap) (k : Nat) : Nat :=
  match k with
  | 0 => R.NVIC_DIS0_REG
  | 1 => R.NVIC_DIS1_REG
  | 2 => R.NVIC_DIS2_REG
  | 3 => R.NVIC_DIS3_REG
  | _ => R.NVIC_DIS4_REG

/-- The addresses of the priority registers that hold lines 0..138: priority
registers 0..34, at `NVIC_PRI_BASE_ADDRESS + 4 * k`. -/
def RegisterMap.definedPriorityRegisters (R : RegisterMap) : List Nat :=
  (List.range 35).map (fun k => R.NVIC_PRI_BASE_ADDRESS + k * 4)

open NVIC_ExceptionType in
/-- The enable mask `NVIC_EnableException` and `NVIC_DisableException` use for each
configurable fault; the other exceptions have no case and no mask. -/
def NvicHeader.ENABLE_MASK (H : NvicHeader) : NVIC_ExceptionType → Nat
  | EXCEPTION_MEM_FAULT_TYPE => H.MEM_FAULT_ENABLE_MASK
  | EXCEPTION_BUS_FAULT_TYPE => H.BUS_FAULT_ENABLE_MASK
  | EXCEPTION_USAGE_FAULT_TYPE => H.USAGE_FAULT_ENABLE_MASK
  | _ => 0

/-! ## Register file lemmas -/

theorem State.load_lt (s : State) (a : Nat) : s.load a < 2 ^ 32 :=
  Nat.mod_lt _ (by decide)

theorem State.load_store_same (s : State) (a v : Nat) :
    (s.store a v).load a = v % 2 ^ 32 := by
  simp [State.load, State.store]

theorem State.mem_store_of_ne (s : State) (a v x : Nat) (h : x ≠ a) :
    (s.store a v).mem x = s.mem x := by
  simp [State.store, h]

theorem State.load_store_of_ne (s : State) (a v x : Nat) (h : x ≠ a) :
    (s.store a v).load x = s.load x := by
  simp [State.load, State.store, h]

theorem State.callBack_store (s : State) (a v : Nat) :
    (s.store a v).g_callBackPtr = s.g_callBackPtr := rfl

theorem State.testBit_load_of_ge (s : State) (a i : Nat) (h : 32 ≤ i) :
    (s.load a).testBit i = false := by
  apply Nat.testBit_lt_two_pow
  exact Nat.lt_of_lt_of_le (s.load_lt a) (Nat.pow_le_pow_right (by decide) h)

/-- A register holding a 32-bit value that is stored back is a no-op. -/
theorem State.store_load_self (s : State) (a : Nat) (h : s.mem a < 2 ^ 32) :
    s.store a (s.load a) = s := by
  cases s with
  | mk mem cb =>
    simp only [State.store, State.load, State.mk.injEq, and_true]
    funext x
    by_cases hx : x = a
    · subst hx
      simp only [if_true, Nat.mod_mod]
      exact Nat.mod_eq_of_lt h
    · simp [hx]

/-! ## NVIC_EnableIRQ -/

theorem and_0x1F (n : Nat) : n &&& 0x1F = n % 32 :=
  Nat.and_pow_two_sub_one_eq_mod n 5

/-- On a valid line, `NVIC_EnableIRQ` is one read-modify-write of the bank register. -/
theorem NVIC_EnableIRQ_eq (R : RegisterMap) (id : Nat) (s : State) (hid : id ≤ 138) :
    NVIC_EnableIRQ R id s
      = s.store (R.NVIC_EN (id / 32)) (s.load (R.NVIC_EN (id / 32)) ||| (1 <<< (id % 32))) := by
  unfold NVIC_EnableIRQ
  simp only [and_0x1F]
  split_ifs with h0 h1 h2 h3 h4
  · have hq : id / 32 = 0 := by omega
    have hr : id % 32 = id := by omega
    rw [hq, hr]; rfl
  · have hq : id / 32 = 1 := by omega
    rw [hq]; rfl
  · have hq : id / 32 = 2 := by omega
    rw [hq]; rfl
  · have hq : id / 32 = 3 := by omega
    rw [hq]; rfl
  · have hq : id / 32 = 4 := by omega
    rw [hq]; rfl
  · omega

/-- Setting bit `k` of a 32-bit word, bit by bit. -/
theorem testBit_setBit32 (v k j : Nat) (hv : v < 2 ^ 32) (hk : k < 32) :
    ((v ||| (1 <<< k)) % 2 ^ 32).testBit j = (v.testBit j || decide (k = j)) := by
  rw [Nat.testBit_mod_two_pow, Nat.testBit_or, Nat.one_shiftLeft, Nat.testBit_two_pow]
  by_cases hj : j < 32
  · simp [hj]
  · have hvj : v.testBit j = false := by
      apply Nat.testBit_lt_two_pow
      exact Nat.lt_of_lt_of_le hv (Nat.pow_le_pow_right (by decide) (by omega))
    have hkj : ¬ k = j := by omega
    simp [hj, hvj, hkj]

/-- C2: for every line `id` in 0..138, `NVIC_EnableIRQ id` sets bit `id mod 32` of
enable register number `id / 32` (the register becomes the old value with that
bit or-ed in), leaves every other bit of that register unchanged, and leaves
every other register and the callback slot unchanged. -/
theorem NVIC_EnableIRQ_sets_exactly_one_bit (R : RegisterMap) (id : Nat) (s : State)
    (hid : id ≤ 138) :
    ((NVIC_EnableIRQ R id s).load (R.NVIC_EN (id / 32))).testBit (id % 32) = true
    ∧ (∀ j, j ≠ id % 32 →
        ((NVIC_EnableIRQ R id s).load (R.NVIC_EN (id / 32))).testBit j
          = (s.load (R.NVIC_EN (id / 32))).testBit j)
    ∧ (∀ x, x ≠ R.NVIC_EN (id / 32) → (NVIC_EnableIRQ R id s).mem x = s.mem x)
    ∧ (NVIC_EnableIRQ R id s).g_callBackPtr = s.g_callBackPtr := by
  rw [NVIC_EnableIRQ_eq R id s hid]
  have hk : id % 32 < 32 := Nat.mod_lt _ (by decide)
  refine ⟨?_, ?_, ?_, rfl⟩
  · rw [State.load_store_same, testBit_setBit32 _ _ _ (s.load_lt _) hk]
    simp
  · intro j hj
    rw [State.load_store_same, testBit_setBit32 _ _ _ (s.load_lt _) hk]
    have : ¬ id % 32 = j := fun h => hj h.symm
    simp [this]
  · intro x hx
    exact State.mem_store_of_ne s _ _ x hx

/-- Witness of C2 at the bank boundary 138 on the zero state. -/
theorem NVIC_EnableIRQ_sets_exactly_one_bit_witness :
    138 ≤ 138
    ∧ ((NVIC_EnableIRQ tm4c123gh6pm 138 zeroState).load
        (tm4c123gh6pm.NVIC_EN (138 / 32))).testBit (138 % 32) = true
    ∧ (NVIC_EnableIRQ tm4c123gh6pm 138 zeroState).load 0xE000E110 = 0x400 :=
  ⟨by decide,
   (NVIC_EnableIRQ_sets_exactly_one_bit tm4c123gh6pm 138 zeroState (by decide)).1,
   by decide⟩

/-! ## Bit-field lemmas -/

theorem testBit_seven (k : Nat) : (7 : Nat).testBit k = decide (k < 3) :=
  Nat.testBit_two_pow_sub_one 3 k

theorem testBit_eq_false_of_lt (x n i : Nat) (hx : x < 2 ^ n) (hi : n ≤ i) :
    x.testBit i = false :=
  Nat.testBit_lt_two_pow (Nat.lt_of_lt_of_le hx (Nat.pow_le_pow_right (by decide) hi))

theorem testBit_not32 (x i : Nat) :
    (not32 x).testBit i = (decide (i < 32) && !x.testBit i) := by
  have h : not32 x = 2 ^ 32 - (x % 2 ^ 32 + 1) := by
    unfold not32; omega
  rw [h, Nat.testBit_two_pow_sub_succ (Nat.mod_lt _ (by decide)), Nat.testBit_mod_two_pow]
  by_cases hi : i < 32 <;> simp [hi]

/-- After a read-modify-write whose mask lies below the field, the field holds `p`. -/
theorem field_after_rmw (v m p pos : Nat) (hm : m < 2 ^ pos) (hp : p < 8)
    (hpos : pos + 3 ≤ 32) :
    ((((v &&& m) ||| (p <<< pos)) % 2 ^ 32) >>> pos) &&& 7 = p := by
  apply Nat.eq_of_testBit_eq
  intro j
  rw [Nat.testBit_and, Nat.testBit_shiftRight, Nat.testBit_mod_two_pow, Nat.testBit_or,
    Nat.testBit_and, Nat.testBit_shiftLeft, testBit_seven]
  have hm' : m.testBit (pos + j) = false := testBit_eq_false_of_lt m pos _ hm (by omega)
  have hsub : pos + j - pos = j := by omega
  rw [hm', hsub]
  by_cases hj : j < 3
  · have h1 : pos + j < 32 := by omega
    simp [hj, h1]
  · have h2 : p.testBit j = false := testBit_eq_false_of_lt p 3 j hp (by omega)
    simp [hj, h2]

/-- A read-modify-write of the 3-bit field at `posA` with the complement mask leaves
every bit outside the field as it was. -/
theorem testBit_rmw_outside (v p posA i : Nat) (hv : v < 2 ^ 32) (hp : p < 8)
    (hi : i < posA ∨ posA + 3 ≤ i) :
    (((v &&& not32 (7 <<< posA)) ||| (p <<< posA)) % 2 ^ 32).testBit i = v.testBit i := by
  rw [Nat.testBit_mod_two_pow, Nat.testBit_or, Nat.testBit_and, testBit_not32,
    Nat.testBit_shiftLeft, Nat.testBit_shiftLeft, testBit_seven]
  by_cases h32 : i < 32
  · rcases hi with hi | hi
    · have : ¬ i ≥ posA := by omega
      simp [h32, this]
    · have h3 : ¬ i - posA < 3 := by omega
      have hpb : p.testBit (i - posA) = false :=
        testBit_eq_false_of_lt p 3 _ hp (by omega)
      simp [h32, h3, hpb]
  · have hvb : v.testBit i = false := testBit_eq_false_of_lt v 32 i hv (by omega)
    simp [h32, hvb]

/-- The 3-bit field at `posB` is untouched by a read-modify-write of a field at
least 3 bits away. -/
theorem field_rmw_other (v p posA posB : Nat) (hv : v < 2 ^ 32) (hp : p < 8)
    (h : posA + 3 ≤ posB ∨ posB + 3 ≤ posA) :
    ((((v &&& not32 (7 <<< posA)) ||| (p <<< posA)) % 2 ^ 32) >>> posB) &&& 7
      = (v >>> posB) &&& 7 := by
  apply Nat.eq_of_testBit_eq
  intro j
  rw [Nat.testBit_and, Nat.testBit_and, Nat.testBit_shiftRight, Nat.testBit_shiftRight,
    testBit_seven]
  by_cases hj : j < 3
  · rw [testBit_rmw_outside v p posA (posB + j) hv hp (by omega)]
  · simp [hj]

/-! ## NVIC_SetPriorityIRQ -/

theorem and_0x03 (n : Nat) : n &&& 0x03 = n % 4 :=
  Nat.and_pow_two_sub_one_eq_mod n 2

/-- The offset expression of the code is `(id mod 4) * 8 + 5`. -/
theorem offset_expr_eq (id : Nat) : ((id &&& 0x03) <<< 3) ||| 0x05 = (id % 4) * 8 + 5 := by
  rw [and_0x03]
  have h : id % 4 = 0 ∨ id % 4 = 1 ∨ id % 4 = 2 ∨ id % 4 = 3 := by omega
  rcases h with h | h | h | h <;> rw [h] <;> rfl

theorem Pri_Bits_Pos_eq (id : Nat) : Pri_Bits_Pos id = (id % 4) * 8 + 5 := by
  unfold Pri_Bits_Pos uint8
  rw [offset_expr_eq]
  have h : id % 4 < 4 := Nat.mod_lt _ (by decide)
  omega

/-- The 8-bit mask never reaches the field it is meant to clear around. -/
theorem Pri_Mask_lt (id : Nat) : Pri_Mask id < 2 ^ ((id % 4) * 8 + 5) := by
  unfold Pri_Mask
  rw [Pri_Bits_Pos_eq]
  have h : id % 4 = 0 ∨ id % 4 = 1 ∨ id % 4 = 2 ∨ id % 4 = 3 := by omega
  rcases h with h | h | h | h <;> rw [h] <;> decide

/-- The 8-bit mask is `0x1F` for the lowest byte lane and `0xFF` for the other three. -/
theorem Pri_Mask_eq (id : Nat) : Pri_Mask id = if id % 4 = 0 then 0x1F else 0xFF := by
  unfold Pri_Mask
  rw [Pri_Bits_Pos_eq]
  have h : id % 4 = 0 ∨ id % 4 = 1 ∨ id % 4 = 2 ∨ id % 4 = 3 := by omega
  rcases h with h | h | h | h <;> rw [h] <;> decide

/-- C1, evaluated on the code: with line 1 at priority 7 and every other register
zero, `NVIC_SetPriorityIRQ(0, 0)` leaves priority register 0 equal to zero, so the
field of line 1 (bits 13..15) goes from 7 to 0. -/
theorem NVIC_SetPriorityIRQ_clears_neighbour_field :
    linePriorityField tm4c123gh6pm 1 line1Priority7 = 7
    ∧ linePriorityField tm4c123gh6pm 1 (NVIC_SetPriorityIRQ tm4c123gh6pm 0 0 line1Priority7) = 0
    ∧ line1Priority7.load 0xE000E400 = 0x0000E000
    ∧ (NVIC_SetPriorityIRQ tm4c123gh6pm 0 0 line1Priority7).load 0xE000E400 = 0
    ∧ Pri_Mask 0 = 0x1F := by
  decide

/-- C3: for every line `id` in 0..138 and priority `p` in 0..7, after
`NVIC_SetPriorityIRQ(id, p)` the priority register at
`NVIC_PRI_BASE_ADDRESS + (id / 4) * 4` holds `p` in the 3-bit field at bit offset
`(id mod 4) * 8 + 5`, and the offset the code computes, `((id & 3) << 3) | 5`,
is that offset. -/
theorem NVIC_SetPriorityIRQ_field_holds_priority (R : RegisterMap) (id p : Nat) (s : State)
    (_hid : id ≤ 138) (hp : p ≤ 7) :
    (((NVIC_SetPriorityIRQ R id p s).load (R.NVIC_PRI_BASE_ADDRESS + (id / 4) * 4))
        >>> ((id % 4) * 8 + 5)) &&& 7 = p
    ∧ ((id &&& 0x03) <<< 3) ||| 0x05 = (id % 4) * 8 + 5
    ∧ Pri_Bits_Pos id = (id % 4) * 8 + 5 := by
  refine ⟨?_, offset_expr_eq id, Pri_Bits_Pos_eq id⟩
  unfold NVIC_SetPriorityIRQ Pri_Reg_PTR
  rw [State.load_store_same, Pri_Bits_Pos_eq]
  have h : id % 4 < 4 := Nat.mod_lt _ (by decide)
  exact field_after_rmw _ _ p _ (Pri_Mask_lt id) (by omega) (by omega)

/-- Witness of C3 at line 138 with priority 5. -/
theorem NVIC_SetPriorityIRQ_field_holds_priority_witness :
    138 ≤ 138 ∧ 5 ≤ 7
    ∧ (((NVIC_SetPriorityIRQ tm4c123gh6pm 138 5 zeroState).load
          (tm4c123gh6pm.NVIC_PRI_BASE_ADDRESS + (138 / 4) * 4))
        >>> ((138 % 4) * 8 + 5)) &&& 7 = 5 :=
  ⟨by decide, by decide,
   (NVIC_SetPriorityIRQ_field_holds_priority tm4c123gh6pm 138 5 zeroState
      (by decide) (by decide)).1⟩

/-! ## Exception services -/

open NVIC_ExceptionType in
/-- C6: for every priority `p` in 0..7 and every initial register state,
`NVIC_SetPriorityException` applied to one of MemManagementFault, BusFault,
UsageFault leaves the 3-bit priority fields of the other two in
`NVIC_SYSTEM_PRI1_REG` unchanged, when each mask of the header is the 32-bit
complement of `7 << X_PRIORITY_BITS_POS` and the three bit positions are
pairwise at least 3 apart. -/
theorem NVIC_SetPriorityException_preserves_other_faults (R : RegisterMap) (H : NvicHeader)
    (A B : NVIC_ExceptionType) (p : Nat) (s : State)
    (hA : A.isConfigurableFault = true) (hB : B.isConfigurableFault = true) (hAB : A ≠ B)
    (hp : p ≤ 7) (hmask : H.FaultMasksComplement) (hapart : H.FaultFieldsApart) :
    exceptionPriorityField R H B (NVIC_SetPriorityException R H A p s)
      = exceptionPriorityField R H B s := by
  obtain ⟨hm, hb, hu⟩ := hmask
  obtain ⟨hmb, hmu, hbu⟩ := hapart
  have hp8 : p < 8 := by omega
  have hv := s.load_lt R.NVIC_SYSTEM_PRI1_REG
  cases A <;> cases B <;>
    first
    | exact absurd rfl hAB
    | exact absurd hA (by decide)
    | exact absurd hB (by decide)
    | skip
  · simp only [exceptionPriorityField, NVIC_SetPriorityException, RegisterMap.SYSTEM_PRI_REG,
      NvicHeader.PRIORITY_BITS_POS, State.load_store_same, hm]
    exact field_rmw_other _ p _ _ hv hp8 hmb
  · simp only [exceptionPriorityField, NVIC_SetPriorityException, RegisterMap.SYSTEM_PRI_REG,
      NvicHeader.PRIORITY_BITS_POS, State.load_store_same, hm]
    exact field_rmw_other _ p _ _ hv hp8 hmu
  · simp only [exceptionPriorityField, NVIC_SetPriorityException, RegisterMap.SYSTEM_PRI_REG,
      NvicHeader.PRIORITY_BITS_POS, State.load_store_same, hb]
    exact field_rmw_other _ p _ _ hv hp8 hmb.symm
  · simp only [exceptionPriorityField, NVIC_SetPriorityException, RegisterMap.SYSTEM_PRI_REG,
      NvicHeader.PRIORITY_BITS_POS, State.load_store_same, hb]
    exact field_rmw_other _ p _ _ hv hp8 hbu
  · simp only [exceptionPriorityField, NVIC_SetPriorityException, RegisterMap.SYSTEM_PRI_REG,
      NvicHeader.PRIORITY_BITS_POS, State.load_store_same, hu]
    exact field_rmw_other _ p _ _ hv hp8 hmu.symm
  · simp only [exceptionPriorityField, NVIC_SetPriorityException, RegisterMap.SYSTEM_PRI_REG,
      NvicHeader.PRIORITY_BITS_POS, State.load_store_same, hu]
    exact field_rmw_other _ p _ _ hv hp8 hbu.symm

open NVIC_ExceptionType in
/-- Witness of C6: with all three fault priorities at 7, setting BusFault to 2 on the
reference positions 5, 13, 21 leaves the UsageFault field at 7. -/
theorem NVIC_SetPriorityException_preserves_other_faults_witness :
    exceptionPriorityField tm4c123gh6pm complementHeader EXCEPTION_USAGE_FAULT_TYPE
        (NVIC_SetPriorityException tm4c123gh6pm complementHeader EXCEPTION_BUS_FAULT_TYPE 2
          allFaultsPriority7)
      = exceptionPriorityField tm4c123gh6pm complementHeader EXCEPTION_USAGE_FAULT_TYPE
          allFaultsPriority7
    ∧ exceptionPriorityField tm4c123gh6pm complementHeader EXCEPTION_USAGE_FAULT_TYPE
          allFaultsPriority7 = 7
    ∧ exceptionPriorityField tm4c123gh6pm complementHeader EXCEPTION_BUS_FAULT_TYPE
        (NVIC_SetPriorityException tm4c123gh6pm complementHeader EXCEPTION_BUS_FAULT_TYPE 2
          allFaultsPriority7) = 2 :=
  ⟨NVIC_SetPriorityException_preserves_other_faults tm4c123gh6pm complementHeader
      EXCEPTION_BUS_FAULT_TYPE EXCEPTION_USAGE_FAULT_TYPE 2 allFaultsPriority7
      rfl rfl (by decide) (by decide)
      ⟨by decide, by decide, by decide⟩ ⟨by decide, by decide, by decide⟩,
   by decide, by decide⟩

open NVIC_ExceptionType in
/-- C7: for every exception identifier among SVCall, DebugMonitor, PendSV, SysTick
and every state, `NVIC_EnableException` and `NVIC_DisableException` write
nothing: the state after the call is the state before it. -/
theorem NVIC_EnableDisableException_noop (R : RegisterMap) (H : NvicHeader)
    (e : NVIC_ExceptionType) (s : State)
    (he : e = EXCEPTION_SVC_TYPE ∨ e = EXCEPTION_DEBUG_MONITOR_TYPE
      ∨ e = EXCEPTION_PEND_SV_TYPE ∨ e = EXCEPTION_SYSTICK_TYPE) :
    NVIC_EnableException R H e s = s ∧ NVIC_DisableException R H e s = s := by
  rcases he with h | h | h | h <;> subst h <;> exact ⟨rfl, rfl⟩

open NVIC_ExceptionType in
/-- Witness of C7 at PendSV. -/
theorem NVIC_EnableDisableException_noop_witness :
    NVIC_EnableException tm4c123gh6pm complementHeader EXCEPTION_PEND_SV_TYPE allFaultsPriority7
        = allFaultsPriority7
    ∧ NVIC_DisableException tm4c123gh6pm complementHeader EXCEPTION_PEND_SV_TYPE
        allFaultsPriority7 = allFaultsPriority7 :=
  NVIC_EnableDisableException_noop tm4c123gh6pm complementHeader EXCEPTION_PEND_SV_TYPE
    allFaultsPriority7 (Or.inr (Or.inr (Or.inl rfl)))

/-! ## SysTick -/

theorem uint32_reloadExpr (ms : Nat) (h1 : 1 ≤ ms) (h2 : ms ≤ 65535) :
    uint32 (reloadExpr ms) = ms * 16000 - 1 := by
  unfold uint32 reloadExpr uint16
  have hm : ms % 2 ^ 16 = ms := Nat.mod_eq_of_lt (by omega)
  rw [hm]
  have h32 : (2 : Int) ^ 32 = 4294967296 := by norm_num
  rw [h32]
  omega

theorem SysTick_Init_reload (R : RegisterMap) (ms : Nat) (s : State)
    (hR : R.SysTickDistinct) :
    (SysTick_Init R ms s).load R.SYSTICK_RELOAD_REG = uint32 (reloadExpr ms) % 2 ^ 32 := by
  obtain ⟨h1, h2, h3⟩ := hR
  simp [SysTick_Init, State.load, State.store, h1, h2, h3, Ne.symm h1, Ne.symm h2, Ne.symm h3]

/-- C4: for every period `ms` in 1..65535, `SysTick_Init(ms)` leaves the reload
register equal to exactly `ms * 16000 - 1`: the `int` expression stays within
the range of a 32-bit `int`, and its 32-bit store does not wrap.  In particular
`SysTick_Init(10)` writes 159999 and `SysTick_Init(1)` writes 15999. -/
theorem SysTick_Init_reload_exact (R : RegisterMap) (ms : Nat) (s : State)
    (hR : R.SysTickDistinct) (h1 : 1 ≤ ms) (h2 : ms ≤ 65535) :
    (SysTick_Init R ms s).load R.SYSTICK_RELOAD_REG = ms * 16000 - 1
    ∧ reloadExpr ms = (ms : Int) * 16000 - 1
    ∧ (0 ≤ (ms : Int) * 16000 - 1 ∧ (ms : Int) * 16000 < 2 ^ 31)
    ∧ ((uint32 (reloadExpr ms) : Nat) : Int) = reloadExpr ms
    ∧ (SysTick_Init R 10 s).load R.SYSTICK_RELOAD_REG = 159999
    ∧ (SysTick_Init R 1 s).load R.SYSTICK_RELOAD_REG = 15999 := by
  have hm : ms % 2 ^ 16 = ms := Nat.mod_eq_of_lt (by omega)
  have hexpr : reloadExpr ms = (ms : Int) * 16000 - 1 := by
    unfold reloadExpr uint16; rw [hm]
  refine ⟨?_, hexpr, ⟨by omega, by omega⟩, ?_, ?_, ?_⟩
  · rw [SysTick_Init_reload R ms s hR, uint32_reloadExpr ms h1 h2]
    apply Nat.mod_eq_of_lt; omega
  · rw [uint32_reloadExpr ms h1 h2, hexpr]; omega
  · rw [SysTick_Init_reload R 10 s hR]; rfl
  · rw [SysTick_Init_reload R 1 s hR]; rfl

/-- Witness of C4 at the largest period 65535. -/
theorem SysTick_Init_reload_exact_witness :
    tm4c123gh6pm.SysTickDistinct ∧ 1 ≤ 65535 ∧ 65535 ≤ 65535
    ∧ (SysTick_Init tm4c123gh6pm 65535 zeroState).load tm4c123gh6pm.SYSTICK_RELOAD_REG
        = 65535 * 16000 - 1 :=
  ⟨⟨by decide, by decide, by decide⟩, by decide, by decide,
   (SysTick_Init_reload_exact tm4c123gh6pm 65535 zeroState
      ⟨by decide, by decide, by decide⟩ (by decide) (by decide)).1⟩

/-! ### Callback dispatch -/

theorem TimerOp.apply_callBack (R : RegisterMap) (op : TimerOp) (s : State) :
    (op.apply R s).g_callBackPtr = s.g_callBackPtr := by
  cases op <;> rfl

theorem SysTick_Handler_eq (s : State) : SysTick_Handler s = s.g_callBackPtr.toList := by
  unfold SysTick_Handler
  cases s.g_callBackPtr <;> rfl

/-- While no `SysTick_SetCallBack` intervenes, every firing invokes the slot's content. -/
theorem handlerTrace_eq (R : RegisterMap) (ops : List TimerOp) (s : State) :
    handlerTrace R ops s
      = List.replicate (ops.count TimerOp.handler) s.g_callBackPtr.toList := by
  induction ops generalizing s with
  | nil => rfl
  | cons op ops ih =>
    unfold handlerTrace
    by_cases h : op = TimerOp.handler
    · subst h
      simp only [if_true, List.count_cons_self, List.replicate_succ]
      rw [ih, SysTick_Handler_eq]
    · have hne : (op == TimerOp.handler) = false := by simpa using h
      rw [if_neg h, ih, TimerOp.apply_callBack, List.count_cons, hne]
      simp

/-- C5: after `SysTick_SetCallBack(f)` with `f` non-null one handler invocation
invokes `f` exactly once and nothing else; after `SysTick_SetCallBack(null)` it
invokes nothing; after `SysTick_SetCallBack(f)` then `SysTick_SetCallBack(g)`,
the handler invokes `g` only, and so does every later firing in any sequence of
timer services and firings. -/
theorem SysTick_callback_dispatch (R : RegisterMap) (f : Nat) (g : Option Nat) (s : State)
    (ops : List TimerOp) :
    SysTick_Handler (SysTick_SetCallBack (some f) s) = [f]
    ∧ SysTick_Handler (SysTick_SetCallBack none s) = []
    ∧ SysTick_Handler (SysTick_SetCallBack g (SysTick_SetCallBack (some f) s)) = g.toList
    ∧ handlerTrace R ops (SysTick_SetCallBack g (SysTick_SetCallBack (some f) s))
        = List.replicate (ops.count TimerOp.handler) g.toList := by
  refine ⟨rfl, rfl, ?_, ?_⟩
  · rw [SysTick_Handler_eq]; rfl
  · rw [handlerTrace_eq]; rfl

/-! ### Stop, start, de-initialise -/

theorem testBit_clearBit0 (v j : Nat) (hv : v < 2 ^ 32) :
    ((v &&& not32 (1 <<< 0)) % 2 ^ 32).testBit j = (v.testBit j && decide (j ≠ 0)) := by
  rw [Nat.testBit_mod_two_pow, Nat.testBit_and, testBit_not32, Nat.one_shiftLeft,
    Nat.testBit_two_pow]
  by_cases hj : j < 32
  · by_cases h0 : j = 0
    · subst h0; simp
    · have : ¬ 0 = j := fun h => h0 h.symm
      simp [hj, h0, this]
  · have hvj : v.testBit j = false := testBit_eq_false_of_lt v 32 j hv (by omega)
    simp [hvj]

/-- C8: `SysTick_Stop` clears only bit 0 of the control register and
`SysTick_Start` sets only bit 0 of it; every other bit of the control register,
every other register (so the reload and current registers) and the callback
slot are unchanged by each, and `SysTick_Stop` followed by `SysTick_Start`
leaves the reload register equal to the value written by the preceding
`SysTick_Init`. -/
theorem SysTick_Stop_Start_frame (R : RegisterMap) (s : State) (ms : Nat)
    (hR : R.SysTickDistinct) :
    (((SysTick_Stop R s).load R.SYSTICK_CTRL_REG).testBit 0 = false
      ∧ (∀ j, j ≠ 0 → ((SysTick_Stop R s).load R.SYSTICK_CTRL_REG).testBit j
          = (s.load R.SYSTICK_CTRL_REG).testBit j)
      ∧ (∀ x, x ≠ R.SYSTICK_CTRL_REG → (SysTick_Stop R s).mem x = s.mem x)
      ∧ (SysTick_Stop R s).mem R.SYSTICK_RELOAD_REG = s.mem R.SYSTICK_RELOAD_REG
      ∧ (SysTick_Stop R s).mem R.SYSTICK_CURRENT_REG = s.mem R.SYSTICK_CURRENT_REG
      ∧ (SysTick_Stop R s).g_callBackPtr = s.g_callBackPtr)
    ∧ (((SysTick_Start R s).load R.SYSTICK_CTRL_REG).testBit 0 = true
      ∧ (∀ j, j ≠ 0 → ((SysTick_Start R s).load R.SYSTICK_CTRL_REG).testBit j
          = (s.load R.SYSTICK_CTRL_REG).testBit j)
      ∧ (∀ x, x ≠ R.SYSTICK_CTRL_REG → (SysTick_Start R s).mem x = s.mem x)
      ∧ (SysTick_Start R s).mem R.SYSTICK_RELOAD_REG = s.mem R.SYSTICK_RELOAD_REG
      ∧ (SysTick_Start R s).mem R.SYSTICK_CURRENT_REG = s.mem R.SYSTICK_CURRENT_REG
      ∧ (SysTick_Start R s).g_callBackPtr = s.g_callBackPtr)
    ∧ (SysTick_Start R (SysTick_Stop R (SysTick_Init R ms s))).load R.SYSTICK_RELOAD_REG
        = (SysTick_Init R ms s).load R.SYSTICK_RELOAD_REG
    ∧ (SysTick_Start R (SysTick_Stop R (SysTick_Init R ms s))).load R.SYSTICK_RELOAD_REG
        = uint32 (reloadExpr ms) := by
  obtain ⟨h1, h2, h3⟩ := hR
  have hframe : ∀ (t : State) (v x : Nat), x ≠ R.SYSTICK_CTRL_REG →
      (t.store R.SYSTICK_CTRL_REG v).mem x = t.mem x :=
    fun t v x hx => State.mem_store_of_ne t _ v x hx
  have hstartstop : ∀ t : State,
      (SysTick_Start R (SysTick_Stop R t)).load R.SYSTICK_RELOAD_REG
        = t.load R.SYSTICK_RELOAD_REG := by
    intro t
    unfold SysTick_Start SysTick_Stop
    rw [State.load_store_of_ne _ _ _ _ (Ne.symm h1), State.load_store_of_ne _ _ _ _ (Ne.symm h1)]
  refine ⟨⟨?_, ?_, ?_, ?_, ?_, rfl⟩, ⟨?_, ?_, ?_, ?_, ?_, rfl⟩, hstartstop _, ?_⟩
  · unfold SysTick_Stop
    rw [State.load_store_same, testBit_clearBit0 _ _ (s.load_lt _)]
    simp
  · intro j hj
    unfold SysTick_Stop
    rw [State.load_store_same, testBit_clearBit0 _ _ (s.load_lt _)]
    simp [hj]
  · intro x hx; exact hframe s _ x hx
  · exact hframe s _ _ (Ne.symm h1)
  · exact hframe s _ _ (Ne.symm h2)
  · unfold SysTick_Start
    rw [State.load_store_same, testBit_setBit32 _ _ _ (s.load_lt _) (by decide)]
    simp
  · intro j hj
    unfold SysTick_Start
    rw [State.load_store_same, testBit_setBit32 _ _ _ (s.load_lt _) (by decide)]
    have : ¬ 0 = j := fun h => hj h.symm
    simp [this]
  · intro x hx; exact hframe s _ x hx
  · exact hframe s _ _ (Ne.symm h1)
  · exact hframe s _ _ (Ne.symm h2)
  · rw [hstartstop, SysTick_Init_reload R ms s ⟨h1, h2, h3⟩]
    unfold uint32
    apply Nat.mod_eq_of_lt
    have h32 : (2 : Int) ^ 32 = 4294967296 := by norm_num
    rw [h32]
    omega

/-- Witness of C8: after `SysTick_Init(10)`, stop then start still reads 159999. -/
theorem SysTick_Stop_Start_frame_witness :
    tm4c123gh6pm.SysTickDistinct
    ∧ (SysTick_Start tm4c123gh6pm (SysTick_Stop tm4c123gh6pm
          (SysTick_Init tm4c123gh6pm 10 zeroState))).load tm4c123gh6pm.SYSTICK_RELOAD_REG
        = uint32 (reloadExpr 10)
    ∧ uint32 (reloadExpr 10) = 159999 :=
  ⟨⟨by decide, by decide, by decide⟩,
   (SysTick_Stop_Start_frame tm4c123gh6pm zeroState 10
      ⟨by decide, by decide, by decide⟩).2.2.2,
   by decide⟩

/-- C9: `SysTick_DeInit` zeroes the control, current and reload registers from
any state, so `SysTick_Init(ms)` followed by `SysTick_DeInit()` leaves all three
equal to zero. -/
theorem SysTick_DeInit_zeroes (R : RegisterMap) (ms : Nat) (s : State) :
    ((SysTick_DeInit R s).load R.SYSTICK_CTRL_REG = 0
      ∧ (SysTick_DeInit R s).load R.SYSTICK_CURRENT_REG = 0
      ∧ (SysTick_DeInit R s).load R.SYSTICK_RELOAD_REG = 0)
    ∧ ((SysTick_DeInit R (SysTick_Init R ms s)).load R.SYSTICK_CTRL_REG = 0
      ∧ (SysTick_DeInit R (SysTick_Init R ms s)).load R.SYSTICK_CURRENT_REG = 0
      ∧ (SysTick_DeInit R (SysTick_Init R ms s)).load R.SYSTICK_RELOAD_REG = 0) := by
  have h : ∀ t : State, (SysTick_DeInit R t).load R.SYSTICK_CTRL_REG = 0
      ∧ (SysTick_DeInit R t).load R.SYSTICK_CURRENT_REG = 0
      ∧ (SysTick_DeInit R t).load R.SYSTICK_RELOAD_REG = 0 := by
    intro t
    unfold SysTick_DeInit State.load State.store
    refine ⟨?_, ?_, ?_⟩
    · by_cases a : R.SYSTICK_CTRL_REG = R.SYSTICK_RELOAD_REG
      · simp [a]
      · by_cases b : R.SYSTICK_CTRL_REG = R.SYSTICK_CURRENT_REG
        · simp [a, b]
        · simp [a, b]
    · by_cases a : R.SYSTICK_CURRENT_REG = R.SYSTICK_RELOAD_REG
      · simp [a]
      · simp [a]
    · simp
  exact ⟨h s, h _⟩

/-! ### Busy wait -/

/-- The loop condition reads bit 16 of the value returned by the read. -/
theorem countFlag_test (v : Nat) : ((v % 2 ^ 32) &&& (1 <<< 16) ≠ 0) ↔ v.testBit 16 = true := by
  constructor
  · intro h
    by_contra hb
    apply h
    apply Nat.eq_of_testBit_eq
    intro i
    rw [Nat.testBit_and, Nat.testBit_mod_two_pow, Nat.one_shiftLeft, Nat.testBit_two_pow,
      Nat.zero_testBit]
    by_cases hi : 16 = i
    · subst hi
      simp only [Bool.not_eq_true] at hb
      simp [hb]
    · simp [hi]
  · intro h h0
    have h1 : ((v % 2 ^ 32) &&& (1 <<< 16)).testBit 16 = false := by
      rw [h0]; exact Nat.zero_testBit 16
    rw [Nat.testBit_and, Nat.testBit_mod_two_pow, Nat.one_shiftLeft, Nat.testBit_two_pow, h] at h1
    simp at h1

/-- The loop is still polling after `fuel` reads that all had the flag clear. -/
theorem pollCountFlag_none (reads : Nat → Nat) (fuel k : Nat)
    (h : ∀ j, k ≤ j → j < k + fuel → (reads j).testBit 16 = false) :
    pollCountFlag reads fuel k = none := by
  induction fuel generalizing k with
  | zero => rfl
  | succ fuel ih =>
    unfold pollCountFlag
    have hk : ¬ ((reads k % 2 ^ 32) &&& (1 <<< 16) ≠ 0) := by
      rw [countFlag_test, h k (Nat.le_refl k) (by omega)]
      simp
    rw [if_neg hk]
    exact ih (k + 1) (fun j hj1 hj2 => h j (by omega) (by omega))

/-- The loop exits at the first read whose flag is set, given fuel to reach it. -/
theorem pollCountFlag_first (reads : Nat → Nat) (fuel k n : Nat) (hkn : k ≤ n)
    (hfuel : n < k + fuel) (hflag : (reads n).testBit 16 = true)
    (hfirst : ∀ j, k ≤ j → j < n → (reads j).testBit 16 = false) :
    pollCountFlag reads fuel k = some (n + 1) := by
  induction fuel generalizing k with
  | zero => omega
  | succ fuel ih =>
    unfold pollCountFlag
    by_cases hk : k = n
    · subst hk
      rw [if_pos ((countFlag_test _).mpr hflag)]
    · have hc : ¬ ((reads k % 2 ^ 32) &&& (1 <<< 16) ≠ 0) := by
        rw [countFlag_test, hfirst k (Nat.le_refl k) (by omega)]
        simp
      rw [if_neg hc]
      exact ih (k + 1) (by omega) (by omega) (fun j hj1 hj2 => hfirst j (by omega) hj2)

/-- Whenever the loop exits, it does so right after the first read with the flag set. -/
theorem pollCountFlag_some (reads : Nat → Nat) (fuel k m : Nat)
    (h : pollCountFlag reads fuel k = some m) :
    k + 1 ≤ m ∧ m ≤ k + fuel ∧ (reads (m - 1)).testBit 16 = true
      ∧ ∀ j, k ≤ j → j < m - 1 → (reads j).testBit 16 = false := by
  induction fuel generalizing k with
  | zero => simp [pollCountFlag] at h
  | succ fuel ih =>
    unfold pollCountFlag at h
    by_cases hc : (reads k % 2 ^ 32) &&& (1 <<< 16) ≠ 0
    · rw [if_pos hc] at h
      have hm : m = k + 1 := by
        injection h with h'; exact h'.symm
      subst hm
      refine ⟨Nat.le_refl _, by omega, ?_, ?_⟩
      · simpa using (countFlag_test _).mp hc
      · intro j hj1 hj2
        have : k + 1 - 1 = k := by omega
        omega
    · rw [if_neg hc] at h
      obtain ⟨h1, h2, h3, h4⟩ := ih (k + 1) h
      refine ⟨by omega, by omega, h3, ?_⟩
      intro j hj1 hj2
      by_cases hjk : j = k
      · subst hjk
        rw [countFlag_test] at hc
        simpa using hc
      · exact h4 j (by omega) hj2

theorem SysTick_Stop_bit0 (R : RegisterMap) (s : State) :
    ((SysTick_Stop R s).load R.SYSTICK_CTRL_REG).testBit 0 = false := by
  unfold SysTick_Stop
  rw [State.load_store_same, testBit_clearBit0 _ _ (s.load_lt _)]
  simp

/-- C10: with the hardware an arbitrary stream of values returned by the reads of
the control register, `SysTick_StartBusyWait(ms)` (a) is still polling after any
number of reads that all had the COUNT flag (bit 16) clear, (b) returns, given
fuel to reach it, right at the first read with the flag set, having made no
further poll, with the enable bit (bit 0) of the control register 0, and
(c) whenever it returns, the last read made had the flag set, every earlier read
had it clear, and bit 0 of the control register is 0. -/
theorem SysTick_StartBusyWait_returns_at_first_flag (R : RegisterMap) (reads : Nat → Nat)
    (ms : Nat) (s : State) :
    (∀ fuel, (∀ j, j < fuel → (reads j).testBit 16 = false) →
        SysTick_StartBusyWait R fuel reads ms s = none)
    ∧ (∀ n fuel, (reads n).testBit 16 = true → (∀ j, j < n → (reads j).testBit 16 = false) →
        n < fuel →
        ∃ s', SysTick_StartBusyWait R fuel reads ms s = some (s', n + 1)
          ∧ (s'.load R.SYSTICK_CTRL_REG).testBit 0 = false)
    ∧ (∀ fuel s' m, SysTick_StartBusyWait R fuel reads ms s = some (s', m) →
        1 ≤ m ∧ (reads (m - 1)).testBit 16 = true
          ∧ (∀ j, j < m - 1 → (reads j).testBit 16 = false)
          ∧ (s'.load R.SYSTICK_CTRL_REG).testBit 0 = false) := by
  refine ⟨?_, ?_, ?_⟩
  · intro fuel h
    unfold SysTick_StartBusyWait
    rw [pollCountFlag_none reads fuel 0 (fun j _ hj => h j (by omega))]
  · intro n fuel hflag hfirst hfuel
    unfold SysTick_StartBusyWait
    rw [pollCountFlag_first reads fuel 0 n (Nat.zero_le n) (by omega) hflag
      (fun j _ hj => hfirst j hj)]
    exact ⟨_, rfl, SysTick_Stop_bit0 R _⟩
  · intro fuel s' m h
    unfold SysTick_StartBusyWait at h
    cases hp : pollCountFlag reads fuel 0 with
    | none => rw [hp] at h; simp at h
    | some k =>
      rw [hp] at h
      simp only [Option.some.injEq, Prod.mk.injEq] at h
      obtain ⟨hs, hk⟩ := h
      subst hk
      obtain ⟨h1, _, h3, h4⟩ := pollCountFlag_some reads fuel 0 k hp
      refine ⟨by omega, h3, fun j hj => h4 j (Nat.zero_le j) hj, ?_⟩
      rw [← hs]
      exact SysTick_Stop_bit0 R _

/-- Witness of C10: on a stream whose flag is first set at read 3, the call is
still polling after 3 reads and returns after exactly 4, with the timer disabled. -/
theorem SysTick_StartBusyWait_returns_at_first_flag_witness :
    SysTick_StartBusyWait tm4c123gh6pm 3 flagAtThird 10 zeroState = none
    ∧ ∃ s', SysTick_StartBusyWait tm4c123gh6pm 10 flagAtThird 10 zeroState = some (s', 3 + 1)
        ∧ (s'.load tm4c123gh6pm.SYSTICK_CTRL_REG).testBit 0 = false :=
  ⟨(SysTick_StartBusyWait_returns_at_first_flag tm4c123gh6pm flagAtThird 10 zeroState).1 3
      (by decide),
   (SysTick_StartBusyWait_returns_at_first_flag tm4c123gh6pm flagAtThird 10 zeroState).2.1 3 10
      (by decide) (by decide) (by decide)⟩

/-! ## Out-of-range lines -/

/-- C11, evaluated on the code: `NVIC_SetPriorityIRQ(140, 1)` on the zero state is
not rejected.  It writes `0x20` to the address `NVIC_PRI_BASE_ADDRESS + 140`,
which is none of the priority registers 0..34 of lines 0..138, so the state
after the call differs from the state before it. -/
theorem NVIC_SetPriorityIRQ_out_of_range_writes :
    138 < 140
    ∧ Pri_Reg_PTR tm4c123gh6pm 140 = 0xE000E48C
    ∧ Pri_Reg_PTR tm4c123gh6pm 140 ∉ tm4c123gh6pm.definedPriorityRegisters
    ∧ zeroState.load (Pri_Reg_PTR tm4c123gh6pm 140) = 0
    ∧ (NVIC_SetPriorityIRQ tm4c123gh6pm 140 1 zeroState).load (Pri_Reg_PTR tm4c123gh6pm 140)
        = 0x20 := by
  decide

/-- C12: for every line identifier above 138, `NVIC_EnableIRQ` and `NVIC_DisableIRQ`
write no register: the state after the call is the state before it. -/
theorem NVIC_EnableDisableIRQ_out_of_range_noop (R : RegisterMap) (id : Nat) (s : State)
    (hid : 138 < id) :
    NVIC_EnableIRQ R id s = s ∧ NVIC_DisableIRQ R id s = s := by
  constructor
  · unfold NVIC_EnableIRQ
    split_ifs <;> first | rfl | omega
  · unfold NVIC_DisableIRQ
    split_ifs <;> first | rfl | omega

/-- Witness of C12 at line 139 with line 1 at priority 7. -/
theorem NVIC_EnableDisableIRQ_out_of_range_noop_witness :
    138 < 139
    ∧ NVIC_EnableIRQ tm4c123gh6pm 139 line1Priority7 = line1Priority7
    ∧ NVIC_DisableIRQ tm4c123gh6pm 139 line1Priority7 = line1Priority7 :=
  ⟨by decide,
   NVIC_EnableDisableIRQ_out_of_range_noop tm4c123gh6pm 139 line1Priority7 (by decide)⟩

/-! ## NVIC_DisableIRQ -/

/-- On a valid line, `NVIC_DisableIRQ` is one read-modify-write of the bank register. -/
theorem NVIC_DisableIRQ_eq (R : RegisterMap) (id : Nat) (s : State) (hid : id ≤ 138) :
    NVIC_DisableIRQ R id s
      = s.store (R.NVIC_DIS (id / 32))
          (s.load (R.NVIC_DIS (id / 32)) ||| (1 <<< (id % 32))) := by
  unfold NVIC_DisableIRQ
  simp only [and_0x1F]
  split_ifs with h0 h1 h2 h3 h4
  · have hq : id / 32 = 0 := by omega
    have hr : id % 32 = id := by omega
    rw [hq, hr]; rfl
  · have hq : id / 32 = 1 := by omega
    rw [hq]; rfl
  · have hq : id / 32 = 2 := by omega
    rw [hq]; rfl
  · have hq : id / 32 = 3 := by omega
    rw [hq]; rfl
  · have hq : id / 32 = 4 := by omega
    rw [hq]; rfl
  · omega

/-- C13: for every line `id` in 0..138, `NVIC_DisableIRQ id` sets bit `id mod 32` of
disable register number `id / 32` and changes nothing else: the other bits of
that register, every other address and the callback slot are unchanged.  In
particular, the enable registers being other addresses than that disable
register, no enable register is written. -/
theorem NVIC_DisableIRQ_sets_disable_bit_only (R : RegisterMap) (id : Nat) (s : State)
    (hid : id ≤ 138) (hR : ∀ k, R.NVIC_EN k ≠ R.NVIC_DIS (id / 32)) :
    ((NVIC_DisableIRQ R id s).load (R.NVIC_DIS (id / 32))).testBit (id % 32) = true
    ∧ (∀ j, j ≠ id % 32 →
        ((NVIC_DisableIRQ R id s).load (R.NVIC_DIS (id / 32))).testBit j
          = (s.load (R.NVIC_DIS (id / 32))).testBit j)
    ∧ (∀ x, x ≠ R.NVIC_DIS (id / 32) → (NVIC_DisableIRQ R id s).mem x = s.mem x)
    ∧ (∀ k, (NVIC_DisableIRQ R id s).mem (R.NVIC_EN k) = s.mem (R.NVIC_EN k))
    ∧ (NVIC_DisableIRQ R id s).g_callBackPtr = s.g_callBackPtr := by
  rw [NVIC_DisableIRQ_eq R id s hid]
  have hk : id % 32 < 32 := Nat.mod_lt _ (by decide)
  refine ⟨?_, ?_, ?_, ?_, rfl⟩
  · rw [State.load_store_same, testBit_setBit32 _ _ _ (s.load_lt _) hk]
    simp
  · intro j hj
    rw [State.load_store_same, testBit_setBit32 _ _ _ (s.load_lt _) hk]
    have : ¬ id % 32 = j := fun h => hj h.symm
    simp [this]
  · intro x hx
    exact State.mem_store_of_ne s _ _ x hx
  · intro k
    exact State.mem_store_of_ne s _ _ _ (hR k)

theorem tm4c123gh6pm_EN_ne_DIS (k j : Nat) :
    tm4c123gh6pm.NVIC_EN k ≠ tm4c123gh6pm.NVIC_DIS j := by
  have hk : tm4c123gh6pm.NVIC_EN k < 0xE000E180 := by
    unfold RegisterMap.NVIC_EN
    split <;> decide
  have hj : 0xE000E180 ≤ tm4c123gh6pm.NVIC_DIS j := by
    unfold RegisterMap.NVIC_DIS
    split <;> decide
  omega

/-- Witness of C13 at line 33 with that line enabled beforehand: bit 1 of
`NVIC_DIS1_REG` is set and `NVIC_EN1_REG` still holds its bit 1. -/
theorem NVIC_DisableIRQ_sets_disable_bit_only_witness :
    33 ≤ 138
    ∧ ((NVIC_DisableIRQ tm4c123gh6pm 33 (NVIC_EnableIRQ tm4c123gh6pm 33 zeroState)).load
        (tm4c123gh6pm.NVIC_DIS (33 / 32))).testBit (33 % 32) = true
    ∧ (NVIC_DisableIRQ tm4c123gh6pm 33 (NVIC_EnableIRQ tm4c123gh6pm 33 zeroState)).load
        tm4c123gh6pm.NVIC_EN1_REG = 2 :=
  ⟨by decide,
   (NVIC_DisableIRQ_sets_disable_bit_only tm4c123gh6pm 33
      (NVIC_EnableIRQ tm4c123gh6pm 33 zeroState) (by decide)
      (fun k => tm4c123gh6pm_EN_ne_DIS k _)).1,
   by decide⟩

/-! ## Fault enable bits and exception priorities -/

/-- On a configurable fault, `NVIC_EnableException` or-s the fault mask into
`NVIC_SYSTEM_SYSHNDCTRL`. -/
theorem NVIC_EnableException_eq (R : RegisterMap) (H : NvicHeader) (e : NVIC_ExceptionType)
    (s : State) (he : e.isConfigurableFault = true) :
    NVIC_EnableException R H e s
      = s.store R.NVIC_SYSTEM_SYSHNDCTRL
          (s.load R.NVIC_SYSTEM_SYSHNDCTRL ||| H.ENABLE_MASK e) := by
  cases e <;> first | rfl | exact absurd he (by decide)

/-- On a configurable fault, `NVIC_DisableException` and-s the complement of the
fault mask into `NVIC_SYSTEM_SYSHNDCTRL`. -/
theorem NVIC_DisableException_eq (R : RegisterMap) (H : NvicHeader) (e : NVIC_ExceptionType)
    (s : State) (he : e.isConfigurableFault = true) :
    NVIC_DisableException R H e s
      = s.store R.NVIC_SYSTEM_SYSHNDCTRL
          (s.load R.NVIC_SYSTEM_SYSHNDCTRL &&& not32 (H.ENABLE_MASK e)) := by
  cases e <;> first | rfl | exact absurd he (by decide)

theorem and_not32_mod (v m : Nat) (hv : v < 2 ^ 32) :
    (v &&& not32 m) % 2 ^ 32 = v &&& not32 m :=
  Nat.mod_eq_of_lt (Nat.lt_of_le_of_lt Nat.and_le_left hv)

/-- C14: for each of MemManagementFault, BusFault, UsageFault with enable mask `M`,
`NVIC_EnableException` changes only `NVIC_SYSTEM_SYSHNDCTRL`, to `old | M`, and
`NVIC_DisableException` changes only `NVIC_SYSTEM_SYSHNDCTRL`, to `old & ~M`;
bits outside `M` are never changed, and enable followed by disable leaves the
bits of `M` clear. -/
theorem NVIC_EnableDisableException_fault_bits (R : RegisterMap) (H : NvicHeader)
    (e : NVIC_ExceptionType) (s : State) (he : e.isConfigurableFault = true) :
    ((NVIC_EnableException R H e s).load R.NVIC_SYSTEM_SYSHNDCTRL
        = (s.load R.NVIC_SYSTEM_SYSHNDCTRL ||| H.ENABLE_MASK e) % 2 ^ 32
      ∧ (H.ENABLE_MASK e < 2 ^ 32 →
          (NVIC_EnableException R H e s).load R.NVIC_SYSTEM_SYSHNDCTRL
            = s.load R.NVIC_SYSTEM_SYSHNDCTRL ||| H.ENABLE_MASK e)
      ∧ (∀ x, x ≠ R.NVIC_SYSTEM_SYSHNDCTRL → (NVIC_EnableException R H e s).mem x = s.mem x)
      ∧ (NVIC_EnableException R H e s).g_callBackPtr = s.g_callBackPtr)
    ∧ ((NVIC_DisableException R H e s).load R.NVIC_SYSTEM_SYSHNDCTRL
        = s.load R.NVIC_SYSTEM_SYSHNDCTRL &&& not32 (H.ENABLE_MASK e)
      ∧ (∀ x, x ≠ R.NVIC_SYSTEM_SYSHNDCTRL → (NVIC_DisableException R H e s).mem x = s.mem x)
      ∧ (NVIC_DisableException R H e s).g_callBackPtr = s.g_callBackPtr)
    ∧ (∀ j, (H.ENABLE_MASK e).testBit j = false →
        ((NVIC_EnableException R H e s).load R.NVIC_SYSTEM_SYSHNDCTRL).testBit j
            = (s.load R.NVIC_SYSTEM_SYSHNDCTRL).testBit j
        ∧ ((NVIC_DisableException R H e s).load R.NVIC_SYSTEM_SYSHNDCTRL).testBit j
            = (s.load R.NVIC_SYSTEM_SYSHNDCTRL).testBit j)
    ∧ (∀ j, (H.ENABLE_MASK e).testBit j = true →
        ((NVIC_DisableException R H e (NVIC_EnableException R H e s)).load
          R.NVIC_SYSTEM_SYSHNDCTRL).testBit j = false) := by
  have hv := s.load_lt R.NVIC_SYSTEM_SYSHNDCTRL
  have hen : (NVIC_EnableException R H e s).load R.NVIC_SYSTEM_SYSHNDCTRL
      = (s.load R.NVIC_SYSTEM_SYSHNDCTRL ||| H.ENABLE_MASK e) % 2 ^ 32 := by
    rw [NVIC_EnableException_eq R H e s he, State.load_store_same]
  have hdis : ∀ t : State, (NVIC_DisableException R H e t).load R.NVIC_SYSTEM_SYSHNDCTRL
      = t.load R.NVIC_SYSTEM_SYSHNDCTRL &&& not32 (H.ENABLE_MASK e) := by
    intro t
    rw [NVIC_DisableException_eq R H e t he, State.load_store_same,
      and_not32_mod _ _ (t.load_lt _)]
  refine ⟨⟨hen, ?_, ?_, ?_⟩, ⟨hdis s, ?_, ?_⟩, ?_, ?_⟩
  · intro hM
    rw [hen]
    exact Nat.mod_eq_of_lt (Nat.or_lt_two_pow hv hM)
  · intro x hx
    rw [NVIC_EnableException_eq R H e s he]
    exact State.mem_store_of_ne s _ _ x hx
  · rw [NVIC_EnableException_eq R H e s he]; rfl
  · intro x hx
    rw [NVIC_DisableException_eq R H e s he]
    exact State.mem_store_of_ne s _ _ x hx
  · rw [NVIC_DisableException_eq R H e s he]; rfl
  · intro j hj
    constructor
    · rw [hen, Nat.testBit_mod_two_pow, Nat.testBit_or, hj]
      by_cases h32 : j < 32
      · simp [h32]
      · have hvj := testBit_eq_false_of_lt _ 32 j hv (by omega)
        simp [hvj]
    · rw [hdis s, Nat.testBit_and, testBit_not32, hj]
      by_cases h32 : j < 32
      · simp [h32]
      · have hvj := testBit_eq_false_of_lt _ 32 j hv (by omega)
        simp [hvj]
  · intro j hj
    rw [hdis, Nat.testBit_and, testBit_not32, hj]
    simp

open NVIC_ExceptionType in
/-- Witness of C14 at BusFault with MemManagementFault already enabled: the
register goes `0x10000`, `0x30000`, `0x10000`. -/
theorem NVIC_EnableDisableException_fault_bits_witness :
    (NVIC_EnableException tm4c123gh6pm complementHeader EXCEPTION_BUS_FAULT_TYPE
        (NVIC_EnableException tm4c123gh6pm complementHeader EXCEPTION_MEM_FAULT_TYPE
          zeroState)).load tm4c123gh6pm.NVIC_SYSTEM_SYSHNDCTRL
      = ((NVIC_EnableException tm4c123gh6pm complementHeader EXCEPTION_MEM_FAULT_TYPE
          zeroState).load tm4c123gh6pm.NVIC_SYSTEM_SYSHNDCTRL
            ||| complementHeader.ENABLE_MASK EXCEPTION_BUS_FAULT_TYPE) % 2 ^ 32
    ∧ (NVIC_EnableException tm4c123gh6pm complementHeader EXCEPTION_BUS_FAULT_TYPE
        (NVIC_EnableException tm4c123gh6pm complementHeader EXCEPTION_MEM_FAULT_TYPE
          zeroState)).load tm4c123gh6pm.NVIC_SYSTEM_SYSHNDCTRL = 0x30000
    ∧ (NVIC_DisableException tm4c123gh6pm complementHeader EXCEPTION_BUS_FAULT_TYPE
        (NVIC_EnableException tm4c123gh6pm complementHeader EXCEPTION_BUS_FAULT_TYPE
          (NVIC_EnableException tm4c123gh6pm complementHeader EXCEPTION_MEM_FAULT_TYPE
            zeroState))).load tm4c123gh6pm.NVIC_SYSTEM_SYSHNDCTRL = 0x10000 :=
  ⟨(NVIC_EnableDisableException_fault_bits tm4c123gh6pm complementHeader
      EXCEPTION_BUS_FAULT_TYPE
      (NVIC_EnableException tm4c123gh6pm complementHeader EXCEPTION_MEM_FAULT_TYPE zeroState)
      rfl).1.1,
   by decide, by decide⟩

open NVIC_ExceptionType in
/-- C15: for every exception `e` and priority `p`, `NVIC_SetPriorityException`
is one write of the system-priority register fixed by `e` alone
(`NVIC_SYSTEM_PRI1_REG` for the three faults, `NVIC_SYSTEM_PRI2_REG` for SVCall,
`NVIC_SYSTEM_PRI3_REG` for DebugMonitor, PendSV, SysTick), to
`(old & mask_e) | (p << pos_e)` as a 32-bit value; every other address, so the
other two system-priority registers, and the callback slot are unchanged. -/
theorem NVIC_SetPriorityException_writes_one_register (R : RegisterMap) (H : NvicHeader)
    (e : NVIC_ExceptionType) (p : Nat) (s : State) :
    NVIC_SetPriorityException R H e p s
        = s.store (R.SYSTEM_PRI_REG e)
            ((s.load (R.SYSTEM_PRI_REG e) &&& H.PRIORITY_MASK e)
              ||| (p <<< H.PRIORITY_BITS_POS e))
    ∧ (NVIC_SetPriorityException R H e p s).load (R.SYSTEM_PRI_REG e)
        = ((s.load (R.SYSTEM_PRI_REG e) &&& H.PRIORITY_MASK e)
              ||| (p <<< H.PRIORITY_BITS_POS e)) % 2 ^ 32
    ∧ (∀ x, x ≠ R.SYSTEM_PRI_REG e → (NVIC_SetPriorityException R H e p s).mem x = s.mem x)
    ∧ (NVIC_SetPriorityException R H e p s).g_callBackPtr = s.g_callBackPtr
    ∧ (R.SYSTEM_PRI_REG EXCEPTION_MEM_FAULT_TYPE = R.NVIC_SYSTEM_PRI1_REG
      ∧ R.SYSTEM_PRI_REG EXCEPTION_BUS_FAULT_TYPE = R.NVIC_SYSTEM_PRI1_REG
      ∧ R.SYSTEM_PRI_REG EXCEPTION_USAGE_FAULT_TYPE = R.NVIC_SYSTEM_PRI1_REG
      ∧ R.SYSTEM_PRI_REG EXCEPTION_SVC_TYPE = R.NVIC_SYSTEM_PRI2_REG
      ∧ R.SYSTEM_PRI_REG EXCEPTION_DEBUG_MONITOR_TYPE = R.NVIC_SYSTEM_PRI3_REG
      ∧ R.SYSTEM_PRI_REG EXCEPTION_PEND_SV_TYPE = R.NVIC_SYSTEM_PRI3_REG
      ∧ R.SYSTEM_PRI_REG EXCEPTION_SYSTICK_TYPE = R.NVIC_SYSTEM_PRI3_REG) := by
  have heq : NVIC_SetPriorityException R H e p s
        = s.store (R.SYSTEM_PRI_REG e)
            ((s.load (R.SYSTEM_PRI_REG e) &&& H.PRIORITY_MASK e)
              ||| (p <<< H.PRIORITY_BITS_POS e)) := by
    cases e <;> rfl
  refine ⟨heq, ?_, ?_, ?_, ⟨rfl, rfl, rfl, rfl, rfl, rfl, rfl⟩⟩
  · rw [heq, State.load_store_same]
  · intro x hx
    rw [heq]
    exact State.mem_store_of_ne s _ _ x hx
  · rw [heq]; rfl

open NVIC_ExceptionType in
/-- Witness of C15 at SVCall with priority 3 and the three faults at priority 7:
`NVIC_SYSTEM_PRI2_REG` becomes `0x60000000` and `NVIC_SYSTEM_PRI1_REG` keeps
`0x00E0E0E0`. -/
theorem NVIC_SetPriorityException_writes_one_register_witness :
    tm4c123gh6pm.NVIC_SYSTEM_PRI1_REG ≠ tm4c123gh6pm.SYSTEM_PRI_REG EXCEPTION_SVC_TYPE
    ∧ (NVIC_SetPriorityException tm4c123gh6pm complementHeader EXCEPTION_SVC_TYPE 3
        allFaultsPriority7).mem tm4c123gh6pm.NVIC_SYSTEM_PRI1_REG
      = allFaultsPriority7.mem tm4c123gh6pm.NVIC_SYSTEM_PRI1_REG
    ∧ allFaultsPriority7.mem tm4c123gh6pm.NVIC_SYSTEM_PRI1_REG = 0x00E0E0E0
    ∧ (NVIC_SetPriorityException tm4c123gh6pm complementHeader EXCEPTION_SVC_TYPE 3
        allFaultsPriority7).load tm4c123gh6pm.NVIC_SYSTEM_PRI2_REG = 0x60000000 :=
  ⟨by decide,
   (NVIC_SetPriorityException_writes_one_register tm4c123gh6pm complementHeader
      EXCEPTION_SVC_TYPE 3 allFaultsPriority7).2.2.1 _ (by decide),
   by decide, by decide⟩

/-! ## SysTick set-up -/

theorem SysTick_Init_ctrl (R : RegisterMap) (ms : Nat) (s : State) (hR : R.SysTickDistinct) :
    (SysTick_Init R ms s).load R.SYSTICK_CTRL_REG = 0x07 := by
  obtain ⟨h1, h2, h3⟩ := hR
  simp [SysTick_Init, State.load, State.store, h1, h2, h3, Ne.symm h1, Ne.symm h2, Ne.symm h3]

theorem SysTick_Init_current (R : RegisterMap) (ms : Nat) (s : State)
    (hR : R.SysTickDistinct) :
    (SysTick_Init R ms s).load R.SYSTICK_CURRENT_REG = 0 := by
  obtain ⟨h1, h2, h3⟩ := hR
  simp [SysTick_Init, State.load, State.store, h1, h2, h3, Ne.symm h1, Ne.symm h2, Ne.symm h3]

theorem uint32_lt (i : Int) : uint32 i < 2 ^ 32 := by
  unfold uint32
  have h32 : (2 : Int) ^ 32 = 4294967296 := by norm_num
  rw [h32]
  omega

theorem SysTick_StartBusyWait_setup_ctrl (R : RegisterMap) (ms : Nat) (s : State)
    (hR : R.SysTickDistinct) :
    (SysTick_StartBusyWait_setup R ms s).load R.SYSTICK_CTRL_REG = 0x05 := by
  obtain ⟨h1, h2, h3⟩ := hR
  simp [SysTick_StartBusyWait_setup, State.load, State.store, h1, h2, h3, Ne.symm h1,
    Ne.symm h2, Ne.symm h3]

/-- Apart from the control register, `SysTick_StartBusyWait` sets up the state
`SysTick_Init` does. -/
theorem SysTick_StartBusyWait_setup_mem (R : RegisterMap) (ms : Nat) (s : State) (x : Nat)
    (hx : x ≠ R.SYSTICK_CTRL_REG) :
    (SysTick_StartBusyWait_setup R ms s).mem x = (SysTick_Init R ms s).mem x := by
  unfold SysTick_StartBusyWait_setup SysTick_Init
  rw [State.mem_store_of_ne _ _ _ x hx, State.mem_store_of_ne _ _ _ x hx]

/-- C16: for every period and every initial contents of the three timer
registers, `SysTick_Init(ms)` ends with the control register equal to exactly
`0x07` (bits 0, 1, 2 set, all other bits clear) and the current register equal
to 0; the three timer registers after the call do not depend on the state
before it. -/
theorem SysTick_Init_control_and_current (R : RegisterMap) (ms : Nat) (s t : State)
    (hR : R.SysTickDistinct) :
    (SysTick_Init R ms s).load R.SYSTICK_CTRL_REG = 0x07
    ∧ (∀ j, ((SysTick_Init R ms s).load R.SYSTICK_CTRL_REG).testBit j = decide (j < 3))
    ∧ (SysTick_Init R ms s).load R.SYSTICK_CURRENT_REG = 0
    ∧ (SysTick_Init R ms s).load R.SYSTICK_RELOAD_REG = uint32 (reloadExpr ms)
    ∧ ((SysTick_Init R ms s).load R.SYSTICK_CTRL_REG
          = (SysTick_Init R ms t).load R.SYSTICK_CTRL_REG
      ∧ (SysTick_Init R ms s).load R.SYSTICK_RELOAD_REG
          = (SysTick_Init R ms t).load R.SYSTICK_RELOAD_REG
      ∧ (SysTick_Init R ms s).load R.SYSTICK_CURRENT_REG
          = (SysTick_Init R ms t).load R.SYSTICK_CURRENT_REG) := by
  refine ⟨SysTick_Init_ctrl R ms s hR, ?_, SysTick_Init_current R ms s hR, ?_, ?_, ?_, ?_⟩
  · intro j
    rw [SysTick_Init_ctrl R ms s hR]
    exact testBit_seven j
  · rw [SysTick_Init_reload R ms s hR]
    exact Nat.mod_eq_of_lt (uint32_lt _)
  · rw [SysTick_Init_ctrl R ms s hR, SysTick_Init_ctrl R ms t hR]
  · rw [SysTick_Init_reload R ms s hR, SysTick_Init_reload R ms t hR]
  · rw [SysTick_Init_current R ms s hR, SysTick_Init_current R ms t hR]

/-- Witness of C16: from a state whose control register holds `0xFFFFFFFF`,
`SysTick_Init(10)` leaves `0x07` there. -/
theorem SysTick_Init_control_and_current_witness :
    tm4c123gh6pm.SysTickDistinct
    ∧ (zeroState.store tm4c123gh6pm.SYSTICK_CTRL_REG 0xFFFFFFFF).load
        tm4c123gh6pm.SYSTICK_CTRL_REG = 0xFFFFFFFF
    ∧ (SysTick_Init tm4c123gh6pm 10
        (zeroState.store tm4c123gh6pm.SYSTICK_CTRL_REG 0xFFFFFFFF)).load
        tm4c123gh6pm.SYSTICK_CTRL_REG = 0x07 :=
  ⟨⟨by decide, by decide, by decide⟩, by decide,
   (SysTick_Init_control_and_current tm4c123gh6pm 10
      (zeroState.store tm4c123gh6pm.SYSTICK_CTRL_REG 0xFFFFFFFF) zeroState
      ⟨by decide, by decide, by decide⟩).1⟩

/-- C17: `SysTick_DeInit` does not clear the callback reference: the slot after
the call is the slot before it, so after `SysTick_SetCallBack(f)` and
`SysTick_DeInit()` a handler invocation still invokes `f`. -/
theorem SysTick_DeInit_keeps_callback (R : RegisterMap) (f : Nat) (g : Option Nat)
    (s : State) :
    (SysTick_DeInit R s).g_callBackPtr = s.g_callBackPtr
    ∧ SysTick_Handler (SysTick_DeInit R (SysTick_SetCallBack (some f) s)) = [f]
    ∧ SysTick_Handler (SysTick_DeInit R (SysTick_SetCallBack g s)) = g.toList := by
  refine ⟨rfl, rfl, ?_⟩
  rw [SysTick_Handler_eq]; rfl

/-- C18 as stated fails for `SysTick_Start`: from the state in which the control,
reload and current registers are all zero, it leaves the control register
equal to 1, the timer enabled. -/
theorem SysTick_Start_before_init_enables :
    zeroState.load tm4c123gh6pm.SYSTICK_CTRL_REG = 0
    ∧ zeroState.load tm4c123gh6pm.SYSTICK_RELOAD_REG = 0
    ∧ zeroState.load tm4c123gh6pm.SYSTICK_CURRENT_REG = 0
    ∧ (SysTick_Start tm4c123gh6pm zeroState).load tm4c123gh6pm.SYSTICK_CTRL_REG = 1
    ∧ (SysTick_Start tm4c123gh6pm zeroState).load tm4c123gh6pm.SYSTICK_CTRL_REG
        ≠ zeroState.load tm4c123gh6pm.SYSTICK_CTRL_REG := by
  decide

/-- C18, amended: from a state in which the control, reload and current
registers are all zero, `SysTick_Stop` and `SysTick_DeInit` leave the three
registers zero, and `SysTick_Start` leaves the reload and current registers
zero and sets the control register to 1 (enable bit set). -/
theorem SysTick_before_init (R : RegisterMap) (s : State) (hR : R.SysTickDistinct)
    (hc : s.load R.SYSTICK_CTRL_REG = 0) (hr : s.load R.SYSTICK_RELOAD_REG = 0)
    (hv : s.load R.SYSTICK_CURRENT_REG = 0) :
    ((SysTick_Stop R s).load R.SYSTICK_CTRL_REG = 0
      ∧ (SysTick_Stop R s).load R.SYSTICK_RELOAD_REG = 0
      ∧ (SysTick_Stop R s).load R.SYSTICK_CURRENT_REG = 0)
    ∧ ((SysTick_DeInit R s).load R.SYSTICK_CTRL_REG = 0
      ∧ (SysTick_DeInit R s).load R.SYSTICK_RELOAD_REG = 0
      ∧ (SysTick_DeInit R s).load R.SYSTICK_CURRENT_REG = 0)
    ∧ ((SysTick_Start R s).load R.SYSTICK_CTRL_REG = 1
      ∧ (SysTick_Start R s).load R.SYSTICK_RELOAD_REG = 0
      ∧ (SysTick_Start R s).load R.SYSTICK_CURRENT_REG = 0) := by
  obtain ⟨h1, h2, h3⟩ := hR
  refine ⟨⟨?_, ?_, ?_⟩, ⟨?_, ?_, ?_⟩, ⟨?_, ?_, ?_⟩⟩
  · unfold SysTick_Stop
    rw [State.load_store_same, hc]; rfl
  · unfold SysTick_Stop
    rw [State.load_store_of_ne _ _ _ _ (Ne.symm h1), hr]
  · unfold SysTick_Stop
    rw [State.load_store_of_ne _ _ _ _ (Ne.symm h2), hv]
  · unfold SysTick_DeInit
    rw [State.load_store_of_ne _ _ _ _ h1, State.load_store_of_ne _ _ _ _ h2,
      State.load_store_same]
    exact Nat.zero_mod _
  · unfold SysTick_DeInit
    rw [State.load_store_same]
    exact Nat.zero_mod _
  · unfold SysTick_DeInit
    rw [State.load_store_of_ne _ _ _ _ (Ne.symm h3), State.load_store_same]
    exact Nat.zero_mod _
  · unfold SysTick_Start
    rw [State.load_store_same, hc]; rfl
  · unfold SysTick_Start
    rw [State.load_store_of_ne _ _ _ _ (Ne.symm h1), hr]
  · unfold SysTick_Start
    rw [State.load_store_of_ne _ _ _ _ (Ne.symm h2), hv]

/-- Witness of the amended C18 on the zero state. -/
theorem SysTick_before_init_witness :
    tm4c123gh6pm.SysTickDistinct
    ∧ zeroState.load tm4c123gh6pm.SYSTICK_CTRL_REG = 0
    ∧ (SysTick_Stop tm4c123gh6pm zeroState).load tm4c123gh6pm.SYSTICK_CTRL_REG = 0
    ∧ (SysTick_Start tm4c123gh6pm zeroState).load tm4c123gh6pm.SYSTICK_RELOAD_REG = 0 :=
  ⟨⟨by decide, by decide, by decide⟩, by decide,
   (SysTick_before_init tm4c123gh6pm zeroState ⟨by decide, by decide, by decide⟩
      (by decide) (by decide) (by decide)).1.1,
   (SysTick_before_init tm4c123gh6pm zeroState ⟨by decide, by decide, by decide⟩
      (by decide) (by decide) (by decide)).2.2.2.1⟩

/-! ## Reload value of the busy wait -/

theorem SysTick_StartBusyWait_setup_reload (R : RegisterMap) (ms : Nat) (s : State)
    (hR : R.SysTickDistinct) :
    (SysTick_StartBusyWait_setup R ms s).load R.SYSTICK_RELOAD_REG = uint32 (reloadExpr ms) := by
  have h : (SysTick_StartBusyWait_setup R ms s).load R.SYSTICK_RELOAD_REG
      = (SysTick_Init R ms s).load R.SYSTICK_RELOAD_REG := by
    unfold State.load
    rw [SysTick_StartBusyWait_setup_mem R ms s _ (Ne.symm hR.1)]
  rw [h, SysTick_Init_reload R ms s hR]
  exact Nat.mod_eq_of_lt (uint32_lt _)

/-- The poll loop and the final `SysTick_Stop` leave the reload register as set up. -/
theorem SysTick_StartBusyWait_reload (R : RegisterMap) (fuel : Nat) (reads : Nat → Nat)
    (ms : Nat) (s s' : State) (n : Nat) (hR : R.SysTickDistinct)
    (h : SysTick_StartBusyWait R fuel reads ms s = some (s', n)) :
    s'.load R.SYSTICK_RELOAD_REG = uint32 (reloadExpr ms) := by
  unfold SysTick_StartBusyWait at h
  cases hp : pollCountFlag reads fuel 0 with
  | none => rw [hp] at h; simp at h
  | some k =>
    rw [hp] at h
    simp only [Option.some.injEq, Prod.mk.injEq] at h
    rw [← h.1]
    unfold SysTick_Stop
    rw [State.load_store_of_ne _ _ _ _ (Ne.symm hR.1),
      State.load_store_of_ne _ _ _ _ (Ne.symm hR.1)]
    exact SysTick_StartBusyWait_setup_reload R ms s hR

theorem uint32_reloadExpr_zero : uint32 (reloadExpr 0) = 4294967295 := by
  decide

/-- C19: `SysTick_Init` and `SysTick_StartBusyWait` have no guard on the period:
for `ms = 0` the computed reload `0 * 16000 - 1` is `-1` and the value stored in
the 32-bit reload register is `2 ^ 32 - 1`, both after `SysTick_Init(0)` and
before and after the poll loop of `SysTick_StartBusyWait(0)`. -/
theorem SysTick_zero_period_reload (R : RegisterMap) (s : State) (hR : R.SysTickDistinct) :
    reloadExpr 0 = -1
    ∧ (SysTick_Init R 0 s).load R.SYSTICK_RELOAD_REG = 2 ^ 32 - 1
    ∧ (SysTick_StartBusyWait_setup R 0 s).load R.SYSTICK_RELOAD_REG = 2 ^ 32 - 1
    ∧ (∀ fuel reads s' n, SysTick_StartBusyWait R fuel reads 0 s = some (s', n) →
        s'.load R.SYSTICK_RELOAD_REG = 2 ^ 32 - 1) := by
  refine ⟨by decide, ?_, ?_, ?_⟩
  · rw [SysTick_Init_reload R 0 s hR, uint32_reloadExpr_zero]; rfl
  · rw [SysTick_StartBusyWait_setup_reload R 0 s hR, uint32_reloadExpr_zero]; rfl
  · intro fuel reads s' n h
    rw [SysTick_StartBusyWait_reload R fuel reads 0 s s' n hR h, uint32_reloadExpr_zero]; rfl

/-- Witness of C19 on the zero state. -/
theorem SysTick_zero_period_reload_witness :
    tm4c123gh6pm.SysTickDistinct
    ∧ (SysTick_Init tm4c123gh6pm 0 zeroState).load tm4c123gh6pm.SYSTICK_RELOAD_REG
        = 2 ^ 32 - 1
    ∧ (SysTick_Init tm4c123gh6pm 0 zeroState).load tm4c123gh6pm.SYSTICK_RELOAD_REG
        = 0xFFFFFFFF :=
  ⟨⟨by decide, by decide, by decide⟩,
   (SysTick_zero_period_reload tm4c123gh6pm zeroState ⟨by decide, by decide, by decide⟩).2.1,
   by decide⟩

/-- C20: for every period and state, the registers `SysTick_StartBusyWait(ms)`
sets up before its first poll have the reload and current values of
`SysTick_Init(ms)` (indeed every address but the control register agrees), and
a control register equal to exactly `0x05`, which differs from the `0x07` of
`SysTick_Init` in bit 1 only. -/
theorem SysTick_StartBusyWait_setup_vs_Init (R : RegisterMap) (ms : Nat) (s : State)
    (hR : R.SysTickDistinct) :
    (SysTick_StartBusyWait_setup R ms s).load R.SYSTICK_RELOAD_REG
        = (SysTick_Init R ms s).load R.SYSTICK_RELOAD_REG
    ∧ (SysTick_StartBusyWait_setup R ms s).load R.SYSTICK_CURRENT_REG
        = (SysTick_Init R ms s).load R.SYSTICK_CURRENT_REG
    ∧ (∀ x, x ≠ R.SYSTICK_CTRL_REG →
        (SysTick_StartBusyWait_setup R ms s).mem x = (SysTick_Init R ms s).mem x)
    ∧ (SysTick_StartBusyWait_setup R ms s).load R.SYSTICK_CTRL_REG = 0x05
    ∧ (SysTick_Init R ms s).load R.SYSTICK_CTRL_REG = 0x07
    ∧ ((SysTick_StartBusyWait_setup R ms s).load R.SYSTICK_CTRL_REG).testBit 1 = false
    ∧ ((SysTick_Init R ms s).load R.SYSTICK_CTRL_REG).testBit 1 = true
    ∧ (∀ j, j ≠ 1 →
        ((SysTick_StartBusyWait_setup R ms s).load R.SYSTICK_CTRL_REG).testBit j
          = ((SysTick_Init R ms s).load R.SYSTICK_CTRL_REG).testBit j) := by
  have h5 := SysTick_StartBusyWait_setup_ctrl R ms s hR
  have h7 := SysTick_Init_ctrl R ms s hR
  refine ⟨?_, ?_, SysTick_StartBusyWait_setup_mem R ms s, h5, h7, ?_, ?_, ?_⟩
  · unfold State.load
    rw [SysTick_StartBusyWait_setup_mem R ms s _ (Ne.symm hR.1)]
  · unfold State.load
    rw [SysTick_StartBusyWait_setup_mem R ms s _ (Ne.symm hR.2.1)]
  · rw [h5]; decide
  · rw [h7]; decide
  · intro j hj
    rw [h5, h7, testBit_seven]
    rcases j with _ | _ | _ | j
    · decide
    · exact absurd rfl hj
    · decide
    · have hlt : (0x05 : Nat).testBit (j + 3) = false :=
        testBit_eq_false_of_lt 5 3 (j + 3) (by decide) (by omega)
      rw [hlt]
      simp

/-- Witness of C20 for a 10 ms period from a state with the control register
all ones. -/
theorem SysTick_StartBusyWait_setup_vs_Init_witness :
    tm4c123gh6pm.SysTickDistinct
    ∧ (SysTick_StartBusyWait_setup tm4c123gh6pm 10
          (zeroState.store tm4c123gh6pm.SYSTICK_CTRL_REG 0xFFFFFFFF)).load
        tm4c123gh6pm.SYSTICK_CTRL_REG = 0x05
    ∧ (SysTick_StartBusyWait_setup tm4c123gh6pm 10
          (zeroState.store tm4c123gh6pm.SYSTICK_CTRL_REG 0xFFFFFFFF)).load
        tm4c123gh6pm.SYSTICK_RELOAD_REG = 159999 :=
  ⟨⟨by decide, by decide, by decide⟩,
   (SysTick_StartBusyWait_setup_vs_Init tm4c123gh6pm 10
      (zeroState.store tm4c123gh6pm.SYSTICK_CTRL_REG 0xFFFFFFFF)
      ⟨by decide, by decide, by decide⟩).2.2.2.1,
   by decide⟩

/-! ## Reload value and the 24-bit reload field -/

/-- C21: for a period `ms` in the `uint16` range, the reload value written by
`SysTick_Init(ms)` and `SysTick_StartBusyWait(ms)` is below `2 ^ 24` if and only
if `1 ≤ ms ≤ 1048`; for every `ms` in 1049..65535 the written value
`ms * 16000 - 1` is at least `2 ^ 24`, so some bit among 24..31 is set and the
low 24 bits differ from the requested count. -/
theorem SysTick_reload_fits_24_bits (R : RegisterMap) (ms : Nat) (s : State)
    (hR : R.SysTickDistinct) (hms : ms ≤ 65535) :
    (SysTick_Init R ms s).load R.SYSTICK_RELOAD_REG = uint32 (reloadExpr ms)
    ∧ (SysTick_StartBusyWait_setup R ms s).load R.SYSTICK_RELOAD_REG = uint32 (reloadExpr ms)
    ∧ (uint32 (reloadExpr ms) < 2 ^ 24 ↔ 1 ≤ ms ∧ ms ≤ 1048)
    ∧ (1049 ≤ ms →
        uint32 (reloadExpr ms) = ms * 16000 - 1
        ∧ 2 ^ 24 ≤ uint32 (reloadExpr ms)
        ∧ uint32 (reloadExpr ms) >>> 24 ≠ 0
        ∧ (∃ j, 24 ≤ j ∧ j < 32 ∧ (uint32 (reloadExpr ms)).testBit j = true)
        ∧ uint32 (reloadExpr ms) % 2 ^ 24 ≠ ms * 16000 - 1) := by
  refine ⟨?_, SysTick_StartBusyWait_setup_reload R ms s hR, ?_, ?_⟩
  · rw [SysTick_Init_reload R ms s hR]
    exact Nat.mod_eq_of_lt (uint32_lt _)
  · by_cases h0 : ms = 0
    · subst h0
      rw [uint32_reloadExpr_zero]
      constructor
      · intro h; exact absurd h (by decide)
      · intro h; omega
    · rw [uint32_reloadExpr ms (by omega) hms]
      constructor
      · intro h; omega
      · intro h; omega
  · intro h
    have hv : uint32 (reloadExpr ms) = ms * 16000 - 1 := uint32_reloadExpr ms (by omega) hms
    have hge : 2 ^ 24 ≤ uint32 (reloadExpr ms) := by rw [hv]; omega
    refine ⟨hv, hge, ?_, ?_, ?_⟩
    · rw [Nat.shiftRight_eq_div_pow]
      have hpos : 0 < uint32 (reloadExpr ms) / 2 ^ 24 :=
        Nat.div_pos hge (by decide)
      omega
    · obtain ⟨j, hj, hb⟩ := Nat.ge_two_pow_implies_high_bit_true hge
      refine ⟨j, hj, ?_, hb⟩
      by_contra h32
      have hf := testBit_eq_false_of_lt _ 32 j (uint32_lt (reloadExpr ms)) (by omega)
      rw [hf] at hb
      exact absurd hb (by decide)
    · rw [hv]; omega

/-- Witness of C21 at the first period that does not fit, 1049: the value written
is 16783999, whose low 24 bits are 6783. -/
theorem SysTick_reload_fits_24_bits_witness :
    tm4c123gh6pm.SysTickDistinct ∧ 1049 ≤ 65535
    ∧ (SysTick_Init tm4c123gh6pm 1049 zeroState).load tm4c123gh6pm.SYSTICK_RELOAD_REG
        = uint32 (reloadExpr 1049)
    ∧ uint32 (reloadExpr 1049) = 16783999
    ∧ uint32 (reloadExpr 1049) % 2 ^ 24 = 6783
    ∧ uint32 (reloadExpr 1048) = 16767999 :=
  ⟨⟨by decide, by decide, by decide⟩, by decide,
   (SysTick_reload_fits_24_bits tm4c123gh6pm 1049 zeroState
      ⟨by decide, by decide, by decide⟩ (by decide)).1,
   by decide, by decide, by decide⟩

/-! ## Algebra of the enable and disable services -/

theorem or_mod_or_mod_self (v m : Nat) :
    (((v ||| m) % 2 ^ 32) % 2 ^ 32 ||| m) % 2 ^ 32 = (v ||| m) % 2 ^ 32 := by
  apply Nat.eq_of_testBit_eq
  intro i
  simp only [Nat.testBit_mod_two_pow, Nat.testBit_or]
  cases decide (i < 32) <;> cases v.testBit i <;> cases m.testBit i <;> rfl

theorem or_mod_or_mod_comm (v m n : Nat) :
    (((v ||| m) % 2 ^ 32) % 2 ^ 32 ||| n) % 2 ^ 32
      = (((v ||| n) % 2 ^ 32) % 2 ^ 32 ||| m) % 2 ^ 32 := by
  apply Nat.eq_of_testBit_eq
  intro i
  simp only [Nat.testBit_mod_two_pow, Nat.testBit_or]
  cases decide (i < 32) <;> cases v.testBit i <;> cases m.testBit i <;>
    cases n.testBit i <;> rfl

/-- Or-ing the same bits twice into a register is or-ing them once. -/
theorem State.store_or_idem (s : State) (a m : Nat) :
    (s.store a (s.load a ||| m)).store a ((s.store a (s.load a ||| m)).load a ||| m)
      = s.store a (s.load a ||| m) := by
  unfold State.store State.load
  simp only [State.mk.injEq, and_true, if_true]
  funext x
  by_cases hx : x = a
  · simp only [hx, if_true]
    exact or_mod_or_mod_self _ m
  · simp only [hx, if_false]

/-- Two or-writes, to the same register or to two registers, commute. -/
theorem State.store_or_comm (s : State) (a b m n : Nat) :
    (s.store a (s.load a ||| m)).store b ((s.store a (s.load a ||| m)).load b ||| n)
      = (s.store b (s.load b ||| n)).store a ((s.store b (s.load b ||| n)).load a ||| m) := by
  unfold State.store State.load
  simp only [State.mk.injEq, and_true]
  funext x
  by_cases hab : a = b
  · subst hab
    by_cases hx : x = a
    · simp only [hx, if_true]
      exact or_mod_or_mod_comm _ m n
    · simp only [hx, if_false]
  · have hba : ¬ b = a := fun h => hab h.symm
    by_cases hxa : x = a
    · subst hxa
      simp only [if_true, hab, hba, if_false]
    · by_cases hxb : x = b
      · subst hxb
        simp only [if_true, hab, hba, hxa, if_false]
      · simp only [hxa, hxb, if_false]

/-- C22: `NVIC_EnableIRQ` is idempotent and order-independent on the whole state:
for all lines `a`, `b` in 0..138 and every state, enabling `a` twice gives the
state of enabling it once, and enabling `a` then `b` gives the state of
enabling `b` then `a`; the same holds for `NVIC_DisableIRQ`. -/
theorem NVIC_EnableDisableIRQ_idempotent_commutative (R : RegisterMap) (a b : Nat) (s : State)
    (ha : a ≤ 138) (hb : b ≤ 138) :
    NVIC_EnableIRQ R a (NVIC_EnableIRQ R a s) = NVIC_EnableIRQ R a s
    ∧ NVIC_EnableIRQ R b (NVIC_EnableIRQ R a s) = NVIC_EnableIRQ R a (NVIC_EnableIRQ R b s)
    ∧ NVIC_DisableIRQ R a (NVIC_DisableIRQ R a s) = NVIC_DisableIRQ R a s
    ∧ NVIC_DisableIRQ R b (NVIC_DisableIRQ R a s)
        = NVIC_DisableIRQ R a (NVIC_DisableIRQ R b s) := by
  refine ⟨?_, ?_, ?_, ?_⟩
  · rw [NVIC_EnableIRQ_eq R a (NVIC_EnableIRQ R a s) ha, NVIC_EnableIRQ_eq R a s ha]
    exact State.store_or_idem s _ _
  · rw [NVIC_EnableIRQ_eq R b (NVIC_EnableIRQ R a s) hb, NVIC_EnableIRQ_eq R a s ha,
      NVIC_EnableIRQ_eq R a (NVIC_EnableIRQ R b s) ha, NVIC_EnableIRQ_eq R b s hb]
    exact State.store_or_comm s _ _ _ _
  · rw [NVIC_DisableIRQ_eq R a (NVIC_DisableIRQ R a s) ha, NVIC_DisableIRQ_eq R a s ha]
    exact State.store_or_idem s _ _
  · rw [NVIC_DisableIRQ_eq R b (NVIC_DisableIRQ R a s) hb, NVIC_DisableIRQ_eq R a s ha,
      NVIC_DisableIRQ_eq R a (NVIC_DisableIRQ R b s) ha, NVIC_DisableIRQ_eq R b s hb]
    exact State.store_or_comm s _ _ _ _

/-- Witness of C22 at lines 31 and 32 (two banks) on the zero state, with the
registers both orders produce. -/
theorem NVIC_EnableDisableIRQ_idempotent_commutative_witness :
    31 ≤ 138 ∧ 32 ≤ 138
    ∧ NVIC_EnableIRQ tm4c123gh6pm 32 (NVIC_EnableIRQ tm4c123gh6pm 31 zeroState)
        = NVIC_EnableIRQ tm4c123gh6pm 31 (NVIC_EnableIRQ tm4c123gh6pm 32 zeroState)
    ∧ (NVIC_EnableIRQ tm4c123gh6pm 32 (NVIC_EnableIRQ tm4c123gh6pm 31 zeroState)).load
        tm4c123gh6pm.NVIC_EN0_REG = 0x80000000
    ∧ (NVIC_EnableIRQ tm4c123gh6pm 32 (NVIC_EnableIRQ tm4c123gh6pm 31 zeroState)).load
        tm4c123gh6pm.NVIC_EN1_REG = 1 :=
  ⟨by decide, by decide,
   (NVIC_EnableDisableIRQ_idempotent_commutative tm4c123gh6pm 31 32 zeroState
      (by decide) (by decide)).2.1,
   by decide, by decide⟩

end ArmDriver
